import Mathlib

/-!
Verification of the dual-mode data coordination engine of the
`accountRelatedRecords` Lightning Web Component
(`force-app/main/default/lwc/accountRelatedRecords/accountRelatedRecords.js`).

The component is a single-threaded, event-driven controller.  We embed its
instance fields as a `ComponentState` structure and each handler as a pure
state transformer.  Asynchronous gateway calls (Apex / LDS promises) are
modelled by passing their outcome (`Except JsError _`) as an argument: the
handler body up to the `await` plus the continuation after it become one
function, and where interleavings matter (search completion races) the
pre-`await` and post-`await` parts are exposed as separate step functions.

JavaScript field values are modelled by `JValue` (string / number / boolean /
null-or-undefined); numbers are integers, which covers every comparison the
verified claims exercise.  JS string ordering is code-unit lexicographic,
modelled by a lexicographic comparison of the character sequences (they
agree outside surrogate pairs), and `toLowerCase` is modelled
character-wise (agreeing with JS on ASCII data).
-/

/-- A JavaScript value stored in a record field. `null` also stands for
`undefined`: the two are indistinguishable to the component (both falsy,
both replaced by `""` in the sort comparator). -/
inductive JValue where
  | str (s : String)
  | num (n : Int)
  | boolean (b : Bool)
  | null
deriving DecidableEq

/-- JavaScript falsiness for the values of `JValue`:
`""`, `0`, `false`, `null`/`undefined` are falsy. -/
def isFalsy : JValue → Bool
  | .str s => s = ""
  | .num n => n = 0
  | .boolean b => !b
  | .null => true

/-- `x || ""` applied to a property read: a missing property reads as
`undefined` (hence falsy), and any falsy value is replaced by `""`. -/
def jsOrEmptyString : Option JValue → JValue
  | none => .str ""
  | some v => if isFalsy v then .str "" else v

/-- A record as returned by the Apex gateway: an `Id` plus opaque named
fields. -/
structure SRecord where
  Id : String
  fields : List (String × JValue)
deriving DecidableEq

/-- A row held by the component: a gateway record augmented with the derived
`recordUrl` navigation key. -/
structure Row where
  Id : String
  fields : List (String × JValue)
  recordUrl : String
deriving DecidableEq

/-- `_addRecordUrls(records)`: `records.map(r => ({...r, recordUrl: "/" + r.Id}))`
(source lines 921-926). -/
def _addRecordUrls (records : List SRecord) : List Row :=
  records.map (fun r => { Id := r.Id, fields := r.fields, recordUrl := "/" ++ r.Id })

/-- Property read `row[fieldName]`; `Id` and `recordUrl` are real properties
of every row object, the rest live in `fields`.  `none` is an absent
property (`undefined`). -/
def getField (r : Row) (f : String) : Option JValue :=
  if f = "Id" then some (.str r.Id)
  else if f = "recordUrl" then some (.str r.recordUrl)
  else r.fields.lookup f

/-- JS `String.prototype.trim`, executable down to the kernel (Lean's own
`String.trim` does not reduce definitionally): strip leading and trailing
whitespace. -/
def jsTrim (s : String) : String :=
  ⟨((s.data.dropWhile Char.isWhitespace).reverse.dropWhile Char.isWhitespace).reverse⟩

/-- JS `Number(s)` restricted to the integer-representable strings of this
model: the empty / all-whitespace string is `0`, a decimal integer literal is
its value, anything else is NaN (`none`).  Only reached by the comparator
when the first operand is not a string, which no verified claim exercises. -/
def jsStringToNumber (s : String) : Option Int :=
  if jsTrim s = "" then some 0 else (jsTrim s).toInt?

/-- JS `ToNumber` on the values of this model (`none` = NaN). -/
def toNumber : JValue → Option Int
  | .str s => jsStringToNumber s
  | .num n => some n
  | .boolean b => some (if b then 1 else 0)
  | .null => some 0

/-- Strict lexicographic comparison of character sequences, executable down
to the kernel; on the basic multilingual plane this is exactly the UTF-16
code-unit comparison JS applies to strings. -/
def jsLtChars : List Char → List Char → Bool
  | [], [] => false
  | [], _ :: _ => true
  | _ :: _, [] => false
  | x :: xs, y :: ys =>
    if x < y then true else if y < x then false else jsLtChars xs ys

/-- JS string `<`. -/
def jsLtString (a b : String) : Bool := jsLtChars a.data b.data

/-- JS `String.prototype.toLowerCase`, modelled character-wise (agreeing
with JS on ASCII data); executable down to the kernel, unlike Lean's own
`String.toLower`. -/
def jsToLowerCase (s : String) : String := ⟨s.data.map Char.toLower⟩

/-- JS `a > b`: string/string compares by code units, otherwise both sides
go through `ToNumber` and any NaN makes the comparison false. -/
def jsGT (a b : JValue) : Bool :=
  match a, b with
  | .str sa, .str sb => jsLtString sb sa
  | _, _ =>
    match toNumber a, toNumber b with
    | some x, some y => y < x
    | _, _ => false

/-- JS `a < b`, same coercions as `jsGT`. -/
def jsLT (a b : JValue) : Bool :=
  match a, b with
  | .str sa, .str sb => jsLtString sa sb
  | _, _ =>
    match toNumber a, toNumber b with
    | some x, some y => x < y
    | _, _ => false

/-- The comparator body of `_sortData` (source lines 930-942):
`valueA = a[fieldName] || ""`, `valueB = b[fieldName] || ""`; when `valueA`
is a string both sides are lower-cased — if `valueB` is then not a string,
`valueB.toLowerCase()` throws a TypeError, modelled as `none`; finally
`valueA > valueB ? isReverse : valueA < valueB ? -isReverse : 0`. -/
def rowCompare (fieldName : String) (isReverse : Int) (a b : Row) : Option Int :=
  let valueA := jsOrEmptyString (getField a fieldName)
  let valueB := jsOrEmptyString (getField b fieldName)
  match valueA, valueB with
  | .str sa, .str sb =>
    let la := JValue.str (jsToLowerCase sa)
    let lb := JValue.str (jsToLowerCase sb)
    some (if jsGT la lb then isReverse else if jsLT la lb then -isReverse else 0)
  | .str _, _ => none
  | _, _ =>
    some (if jsGT valueA valueB then isReverse
          else if jsLT valueA valueB then -isReverse else 0)

/-- Totalised comparator handed to the sort.  The `none` (thrown TypeError)
case is mapped to `0`; it can only arise when the first operand is a string
and the second a non-falsy number or boolean, a situation excluded by the
hypotheses of every sort theorem below, so the totalisation never takes
effect in a proved statement. -/
def rowCompareT (fieldName : String) (isReverse : Int) (a b : Row) : Int :=
  (rowCompare fieldName isReverse a b).getD 0

/-- `_sortData(data, fieldName, sortDirection)` (source lines 928-943).
ECMAScript guarantees `Array.prototype.sort` is stable and, for a consistent
comparator, produces a sequence sorted by it; `List.insertionSort` with the
reflexive relation `comparator ≤ 0` realizes exactly that behaviour
(earlier elements are inserted before later tied ones). -/
def _sortData (data : List Row) (fieldName : String) (sortDirection : String) : List Row :=
  let isReverse : Int := if sortDirection = "desc" then -1 else 1
  data.insertionSort (fun a b => rowCompareT fieldName isReverse a b ≤ 0)

/-- The case-folded sort key a row presents to the comparator when its field
value is a string or falsy (the key is `""` junk otherwise; every sort
theorem restricts attention to string-or-falsy values). -/
def keyOf (fieldName : String) (r : Row) : String :=
  match jsOrEmptyString (getField r fieldName) with
  | .str s => jsToLowerCase s
  | _ => ""

/-- A field value that the comparator treats as a string: an actual string
or any falsy value (which `|| ""` turns into `""`). -/
def IsStringlike (v : Option JValue) : Prop :=
  ∃ s, jsOrEmptyString v = .str s

/-- Error payload carried by a rejected promise (opaque to the component
except for `error.body?.message`, which only feeds toast text). -/
abbrev JsError := String

/-- A pending inline-edit draft from the datatable (`draftValues`). -/
structure Draft where
  Id : String
  fields : List (String × JValue)
deriving DecidableEq

/-- `PAGE_SIZE` (source line 50). -/
def PAGE_SIZE : Nat := 50

/-- `SEARCH_DEBOUNCE_MS` (source line 51); time is not modelled, the debounce
timer appears as the pending search it would fire. -/
def SEARCH_DEBOUNCE_MS : Nat := 300

/-- The instance fields of the component that the coordination engine reads
or writes.  A debounce timer is modelled by the keystroke value it captured
(`none` = no pending timer); `consoleErrorCount` counts `console.error`
calls, the only trace a load-more or search failure leaves outside the
fields.  Purely presentational fields (column defs, active tab, the wired
account record) are omitted: no claim mentions them and no modelled handler
reads them. -/
structure ComponentState where
  _paginatedContacts : List Row := []
  _paginatedOpportunities : List Row := []
  _searchContacts : List Row := []
  _searchOpportunities : List Row := []
  totalContactCount : Nat := 0
  totalOpportunityCount : Nat := 0
  _contactOffset : Nat := 0
  _opportunityOffset : Nat := 0
  enableContactInfiniteLoading : Bool := true
  enableOpportunityInfiniteLoading : Bool := true
  contactDraftValues : List Draft := []
  opportunityDraftValues : List Draft := []
  isLoading : Bool := true
  contactError : Option JsError := none
  opportunityError : Option JsError := none
  isSaving : Bool := false
  contactSearchTerm : String := ""
  opportunitySearchTerm : String := ""
  _isContactSearching : Bool := false
  _isOpportunitySearching : Bool := false
  _contactDebounceTimer : Option String := none
  _opportunityDebounceTimer : Option String := none
  contactSortBy : Option String := none
  contactSortDirection : Option String := none
  opportunitySortBy : Option String := none
  opportunitySortDirection : Option String := none
  _contactsLoading : Bool := false
  _opportunitiesLoading : Bool := false
  consoleErrorCount : Nat := 0
deriving DecidableEq

/-- The field initializers of the class (source lines 196-244): fresh
component state at construction. -/
def initialState : ComponentState := {}

/-- `_isContactSearchActive` (source lines 341-345): the term is truthy and
trims to a non-empty string. -/
def _isContactSearchActive (s : ComponentState) : Bool :=
  s.contactSearchTerm ≠ "" && (jsTrim s.contactSearchTerm).length > 0

/-- `_isOpportunitySearchActive` (source lines 347-352). -/
def _isOpportunitySearchActive (s : ComponentState) : Bool :=
  s.opportunitySearchTerm ≠ "" && (jsTrim s.opportunitySearchTerm).length > 0

/-- `displayedContacts` (source lines 328-332): search results in search
mode, the paginated window otherwise. -/
def displayedContacts (s : ComponentState) : List Row :=
  if _isContactSearchActive s then s._searchContacts else s._paginatedContacts

/-- `displayedOpportunities` (source lines 334-338). -/
def displayedOpportunities (s : ComponentState) : List Row :=
  if _isOpportunitySearchActive s then s._searchOpportunities else s._paginatedOpportunities

/-- `Promise.all` over the four initial-load sub-fetches: succeeds with the
tuple of results when all four succeed, otherwise rejects.  `Promise.all`
rejects with the temporally first rejection; which of several errors wins is
irrelevant downstream (both error flags receive the same value), so the
first in argument order is taken. -/
def promiseAll4 (a b : Except JsError (List SRecord)) (c d : Except JsError Nat) :
    Except JsError (List SRecord × List SRecord × Nat × Nat) :=
  match a, b, c, d with
  | .ok ra, .ok rb, .ok rc, .ok rd => .ok (ra, rb, rc, rd)
  | .error e, _, _, _ => .error e
  | .ok _, .error e, _, _ => .error e
  | .ok _, .ok _, .error e, _ => .error e
  | .ok _, .ok _, .ok _, .error e => .error e

/-- `_loadInitialData()` (source lines 271-316), with the outcomes of its
four concurrent sub-fetches passed in.  On success every visible field is
assigned after the combined `await`; on any rejection the `catch` sets both
error flags and nothing else; `finally` clears `isLoading`. -/
def _loadInitialData (s : ComponentState)
    (contactsFetch oppsFetch : Except JsError (List SRecord))
    (contactCountFetch oppCountFetch : Except JsError Nat) : ComponentState :=
  let s0 := { s with isLoading := true }
  match promiseAll4 contactsFetch oppsFetch contactCountFetch oppCountFetch with
  | .ok (contactsResult, opportunitiesResult, contactCount, oppCount) =>
    { s0 with
      _paginatedContacts := _addRecordUrls contactsResult
      _paginatedOpportunities := _addRecordUrls opportunitiesResult
      totalContactCount := contactCount
      totalOpportunityCount := oppCount
      _contactOffset := contactsResult.length
      _opportunityOffset := opportunitiesResult.length
      enableContactInfiniteLoading := contactsResult.length ≥ PAGE_SIZE
      enableOpportunityInfiniteLoading := opportunitiesResult.length ≥ PAGE_SIZE
      contactError := none
      opportunityError := none
      isLoading := false }
  | .error e =>
    { s0 with contactError := some e, opportunityError := some e, isLoading := false }

/-- `handleContactSearch(event)` (source lines 359-376): record the raw
keystroke value, cancel any pending timer; a blank value synchronously
empties the search results and arms nothing, otherwise a fresh debounce
timer capturing the value is armed. -/
def handleContactSearch (s : ComponentState) (value : String) : ComponentState :=
  let s1 := { s with contactSearchTerm := value, _contactDebounceTimer := none }
  if value = "" || jsTrim value = "" then
    { s1 with _searchContacts := [], _isContactSearching := false }
  else
    { s1 with _contactDebounceTimer := some value }

/-- `handleOpportunitySearch(event)` (source lines 378-393). -/
def handleOpportunitySearch (s : ComponentState) (value : String) : ComponentState :=
  let s1 := { s with opportunitySearchTerm := value, _opportunityDebounceTimer := none }
  if value = "" || jsTrim value = "" then
    { s1 with _searchOpportunities := [], _isOpportunitySearching := false }
  else
    { s1 with _opportunityDebounceTimer := some value }

/-- The part of `_executeContactSearch(term)` before its `await`
(source line 396). -/
def _executeContactSearchStart (s : ComponentState) : ComponentState :=
  { s with _isContactSearching := true }

/-- The continuation of `_executeContactSearch(term)` after a successful
`searchContacts` response (source lines 398-404 and the `finally`): the
result is applied only when the live trimmed term still equals the term the
request was sent with. -/
def _executeContactSearchCompleteOk (s : ComponentState) (term : String)
    (result : List SRecord) : ComponentState :=
  let s1 := if jsTrim s.contactSearchTerm = term
            then { s with _searchContacts := _addRecordUrls result }
            else s
  { s1 with _isContactSearching := false }

/-- The `catch`/`finally` of `_executeContactSearch` (source lines 406-411):
log, clear the search results, drop the in-flight flag. -/
def _executeContactSearchCompleteErr (s : ComponentState) : ComponentState :=
  { s with _searchContacts := [], _isContactSearching := false,
           consoleErrorCount := s.consoleErrorCount + 1 }

/-- `_executeContactSearch(term)` run to completion with no interleaving,
with the gateway outcome passed in (source lines 395-412). -/
def _executeContactSearch (s : ComponentState) (term : String)
    (outcome : Except JsError (List SRecord)) : ComponentState :=
  match outcome with
  | .ok result => _executeContactSearchCompleteOk (_executeContactSearchStart s) term result
  | .error _ => _executeContactSearchCompleteErr (_executeContactSearchStart s)

/-- Pre-`await` part of `_executeOpportunitySearch` (source line 415). -/
def _executeOpportunitySearchStart (s : ComponentState) : ComponentState :=
  { s with _isOpportunitySearching := true }

/-- Post-`await` continuation of `_executeOpportunitySearch` on success
(source lines 417-423 and the `finally`). -/
def _executeOpportunitySearchCompleteOk (s : ComponentState) (term : String)
    (result : List SRecord) : ComponentState :=
  let s1 := if jsTrim s.opportunitySearchTerm = term
            then { s with _searchOpportunities := _addRecordUrls result }
            else s
  { s1 with _isOpportunitySearching := false }

/-- `catch`/`finally` of `_executeOpportunitySearch` (source lines 424-429). -/
def _executeOpportunitySearchCompleteErr (s : ComponentState) : ComponentState :=
  { s with _searchOpportunities := [], _isOpportunitySearching := false,
           consoleErrorCount := s.consoleErrorCount + 1 }

/-- `_executeOpportunitySearch(term)` run to completion (source lines
414-430). -/
def _executeOpportunitySearch (s : ComponentState) (term : String)
    (outcome : Except JsError (List SRecord)) : ComponentState :=
  match outcome with
  | .ok result => _executeOpportunitySearchCompleteOk (_executeOpportunitySearchStart s) term result
  | .error _ => _executeOpportunitySearchCompleteErr (_executeOpportunitySearchStart s)

/-- The contact debounce timer firing (the `setTimeout` callback of source
lines 373-375): a fired timer is consumed and runs
`_executeContactSearch(value.trim())` on the keystroke value it captured. -/
def contactTimerFire (s : ComponentState)
    (outcome : Except JsError (List SRecord)) : ComponentState :=
  match s._contactDebounceTimer with
  | none => s
  | some value =>
    _executeContactSearch { s with _contactDebounceTimer := none } (jsTrim value) outcome

/-- The opportunity debounce timer firing (source lines 390-392). -/
def opportunityTimerFire (s : ComponentState)
    (outcome : Except JsError (List SRecord)) : ComponentState :=
  match s._opportunityDebounceTimer with
  | none => s
  | some value =>
    _executeOpportunitySearch { s with _opportunityDebounceTimer := none } (jsTrim value) outcome

/-- `handleContactLoadMore(event)` (source lines 436-468), with the outcome
of the page fetch at the current offset passed in.  The guard returns before
any request when a search is active or a contact load is already in flight.
`datatableTarget.isLoading` toggles a property of the event's DOM element,
not component state, and is not modelled. -/
def handleContactLoadMore (s : ComponentState)
    (outcome : Except JsError (List SRecord)) : ComponentState :=
  if _isContactSearchActive s || s._contactsLoading then s
  else
    let s0 := { s with _contactsLoading := true }
    match outcome with
    | .ok result =>
      let s1 := { s0 with
        _paginatedContacts := s0._paginatedContacts ++ _addRecordUrls result
        _contactOffset := s0._contactOffset + result.length }
      let s2 := if result.length < PAGE_SIZE
                then { s1 with enableContactInfiniteLoading := false }
                else s1
      { s2 with _contactsLoading := false }
    | .error _ =>
      { s0 with enableContactInfiniteLoading := false
                consoleErrorCount := s0.consoleErrorCount + 1
                _contactsLoading := false }

/-- `handleOpportunityLoadMore(event)` (source lines 470-502). -/
def handleOpportunityLoadMore (s : ComponentState)
    (outcome : Except JsError (List SRecord)) : ComponentState :=
  if _isOpportunitySearchActive s || s._opportunitiesLoading then s
  else
    let s0 := { s with _opportunitiesLoading := true }
    match outcome with
    | .ok result =>
      let s1 := { s0 with
        _paginatedOpportunities := s0._paginatedOpportunities ++ _addRecordUrls result
        _opportunityOffset := s0._opportunityOffset + result.length }
      let s2 := if result.length < PAGE_SIZE
                then { s1 with enableOpportunityInfiniteLoading := false }
                else s1
      { s2 with _opportunitiesLoading := false }
    | .error _ =>
      { s0 with enableOpportunityInfiniteLoading := false
                consoleErrorCount := s0.consoleErrorCount + 1
                _opportunitiesLoading := false }

/-- The contact branch of `_reloadData` on success of its two concurrent
fetches (source lines 889-902): `currentCount` is the offset read before the
fetch; the loaded window is replaced wholesale and `hasMore` re-derived. -/
def _reloadDataContactOk (s : ComponentState) (result : List SRecord)
    (count : Nat) : ComponentState :=
  { s with _paginatedContacts := _addRecordUrls result
           totalContactCount := count
           _contactOffset := result.length
           enableContactInfiniteLoading := result.length ≥ s._contactOffset }

/-- The opportunity branch of `_reloadData` on success (source lines
903-918). -/
def _reloadDataOpportunityOk (s : ComponentState) (result : List SRecord)
    (count : Nat) : ComponentState :=
  { s with _paginatedOpportunities := _addRecordUrls result
           totalOpportunityCount := count
           _opportunityOffset := result.length
           enableOpportunityInfiniteLoading := result.length ≥ s._opportunityOffset }

/-- `Promise.all(updatePromises)`: the first rejection, if any.
Which of several concurrent rejections wins is irrelevant: the error value
only feeds toast text. -/
def firstError : List (Except JsError Unit) → Option JsError
  | [] => none
  | .ok _ :: rest => firstError rest
  | .error e :: _ => some e

/-- `handleContactSave(event)` (source lines 709-750): one `updateRecord`
per draft, combined by `Promise.all`.  Any rejection lands in the `catch`
(toast only) — drafts are kept and no reload happens.  On success drafts are
cleared, the active search (if any) is re-run via `_executeContactSearch`
(which cannot throw), then `_reloadData("contact")` runs; a reload rejection
lands in the same `catch` after drafts were already cleared.
`notifyRecordUpdateAvailable` only touches the external LDS cache. -/
def handleContactSave (s : ComponentState) (draftValues : List Draft)
    (updateOutcomes : List (Except JsError Unit))
    (searchOutcome : Except JsError (List SRecord))
    (reloadOutcome : Except JsError (List SRecord × Nat)) : ComponentState :=
  let s0 := { s with isSaving := true }
  match firstError updateOutcomes with
  | some _ => { s0 with isSaving := false }
  | none =>
    let s1 := { s0 with contactDraftValues := [] }
    let s2 := if _isContactSearchActive s1
              then _executeContactSearch s1 (jsTrim s1.contactSearchTerm) searchOutcome
              else s1
    match reloadOutcome with
    | .ok (result, count) => { _reloadDataContactOk s2 result count with isSaving := false }
    | .error _ => { s2 with isSaving := false }

/-- `handleOpportunitySave(event)` (source lines 752-794). -/
def handleOpportunitySave (s : ComponentState) (draftValues : List Draft)
    (updateOutcomes : List (Except JsError Unit))
    (searchOutcome : Except JsError (List SRecord))
    (reloadOutcome : Except JsError (List SRecord × Nat)) : ComponentState :=
  let s0 := { s with isSaving := true }
  match firstError updateOutcomes with
  | some _ => { s0 with isSaving := false }
  | none =>
    let s1 := { s0 with opportunityDraftValues := [] }
    let s2 := if _isOpportunitySearchActive s1
              then _executeOpportunitySearch s1 (jsTrim s1.opportunitySearchTerm) searchOutcome
              else s1
    match reloadOutcome with
    | .ok (result, count) => { _reloadDataOpportunityOk s2 result count with isSaving := false }
    | .error _ => { s2 with isSaving := false }

/-- `_deleteRow(row, "contact")` (source lines 663-704): on a rejected
`deleteRecord` the `catch` only toasts; on success the active search (if
any) is re-run, then the contact window reloads; a reload rejection is
caught by the same `catch`. -/
def _deleteRowContact (s : ComponentState)
    (deleteOutcome : Except JsError Unit)
    (searchOutcome : Except JsError (List SRecord))
    (reloadOutcome : Except JsError (List SRecord × Nat)) : ComponentState :=
  let s0 := { s with isSaving := true }
  match deleteOutcome with
  | .error _ => { s0 with isSaving := false }
  | .ok _ =>
    let s1 := if _isContactSearchActive s0
              then _executeContactSearch s0 (jsTrim s0.contactSearchTerm) searchOutcome
              else s0
    match reloadOutcome with
    | .ok (result, count) => { _reloadDataContactOk s1 result count with isSaving := false }
    | .error _ => { s1 with isSaving := false }

/-- `_deleteRow(row, "opportunity")` (source lines 663-704). -/
def _deleteRowOpportunity (s : ComponentState)
    (deleteOutcome : Except JsError Unit)
    (searchOutcome : Except JsError (List SRecord))
    (reloadOutcome : Except JsError (List SRecord × Nat)) : ComponentState :=
  let s0 := { s with isSaving := true }
  match deleteOutcome with
  | .error _ => { s0 with isSaving := false }
  | .ok _ =>
    let s1 := if _isOpportunitySearchActive s0
              then _executeOpportunitySearch s0 (jsTrim s0.opportunitySearchTerm) searchOutcome
              else s0
    match reloadOutcome with
    | .ok (result, count) => { _reloadDataOpportunityOk s1 result count with isSaving := false }
    | .error _ => { s1 with isSaving := false }

/-- `handleRefresh()` (source lines 840-874): full reset of both collections
(rows, search rows, offsets, `hasMore`, terms) followed by
`_loadInitialData()`, whose own `catch` means the outer `catch` never sees a
fetch failure. -/
def handleRefresh (s : ComponentState)
    (contactsFetch oppsFetch : Except JsError (List SRecord))
    (contactCountFetch oppCountFetch : Except JsError Nat) : ComponentState :=
  let s0 := { s with isLoading := true
                     _paginatedContacts := []
                     _paginatedOpportunities := []
                     _searchContacts := []
                     _searchOpportunities := []
                     _contactOffset := 0
                     _opportunityOffset := 0
                     enableContactInfiniteLoading := true
                     enableOpportunityInfiniteLoading := true
                     contactSearchTerm := ""
                     opportunitySearchTerm := "" }
  let s1 := _loadInitialData s0 contactsFetch oppsFetch contactCountFetch oppCountFetch
  { s1 with isLoading := false }

/-- `handleContactSort(event)` (source lines 797-816): a sort on the link
column falls back to `Name`; whichever array is currently displayed is
re-sorted, the other is untouched. -/
def handleContactSort (s : ComponentState) (fieldName sortDirection : String) :
    ComponentState :=
  let s0 := { s with contactSortBy := some fieldName
                     contactSortDirection := some sortDirection }
  let sortField := if fieldName = "recordUrl" then "Name" else fieldName
  if _isContactSearchActive s0 then
    { s0 with _searchContacts := _sortData s0._searchContacts sortField sortDirection }
  else
    { s0 with _paginatedContacts := _sortData s0._paginatedContacts sortField sortDirection }

/-- `handleOpportunitySort(event)` (source lines 818-837). -/
def handleOpportunitySort (s : ComponentState) (fieldName sortDirection : String) :
    ComponentState :=
  let s0 := { s with opportunitySortBy := some fieldName
                     opportunitySortDirection := some sortDirection }
  let sortField := if fieldName = "recordUrl" then "Name" else fieldName
  if _isOpportunitySearchActive s0 then
    { s0 with _searchOpportunities := _sortData s0._searchOpportunities sortField sortDirection }
  else
    { s0 with _paginatedOpportunities := _sortData s0._paginatedOpportunities sortField sortDirection }

/-- Modelled from the spec: the remote gateway's paged fetch, absent from
`src/` (it lives in the Apex class `AccountRelatedRecordsController`).
Spec section 6: `fetchPage(parentId, pageSize, offset) → rows[]` — ordered by a
server-defined sort, returning at most `pageSize` rows starting at `offset`;
fewer than `pageSize` rows signals end-of-data. -/
def fetchPage (server : List SRecord) (pageSize offsetVal : Nat) : List SRecord :=
  (server.drop offsetVal).take pageSize

/-! ### Concrete fixtures used by witnesses and counterexamples -/

/-- A sample gateway record. -/
def recA : SRecord := { Id := "003A", fields := [("Name", .str "Ada")] }

/-- Another sample gateway record. -/
def recB : SRecord := { Id := "003B", fields := [("Name", .str "Bea")] }

/-- A component state with an active search term `"ab"` on both
collections. -/
def stAB : ComponentState :=
  { initialState with contactSearchTerm := "ab", opportunitySearchTerm := "ab" }

/-! ### C1 — stale search responses are discarded, last term wins -/

/-- C1: for each collection, a completed search response is applied to the
search rows only if its originating trimmed term still equals the current
trimmed search term; a stale response never changes them; in particular if
searches for `"a"` then `"ab"` both complete with the `"a"` response
arriving last, the displayed rows equal the `"ab"` result. -/
theorem search_last_term_wins
    (s₁ : ComponentState) (term₁ : String) (result₁ : List SRecord)
    (h₁ : jsTrim s₁.contactSearchTerm ≠ term₁)
    (s₂ : ComponentState) (term₂ : String) (result₂ : List SRecord)
    (h₂ : jsTrim s₂.contactSearchTerm = term₂)
    (s₃ : ComponentState) (rA rAb : List SRecord)
    (h₃ : jsTrim s₃.contactSearchTerm = "ab")
    (t₁ : ComponentState) (u₁ : String) (q₁ : List SRecord)
    (g₁ : jsTrim t₁.opportunitySearchTerm ≠ u₁)
    (t₂ : ComponentState) (u₂ : String) (q₂ : List SRecord)
    (g₂ : jsTrim t₂.opportunitySearchTerm = u₂)
    (t₃ : ComponentState) (pA pAb : List SRecord)
    (g₃ : jsTrim t₃.opportunitySearchTerm = "ab") :
    (_executeContactSearchCompleteOk s₁ term₁ result₁)._searchContacts = s₁._searchContacts
    ∧ (_executeContactSearchCompleteOk s₂ term₂ result₂)._searchContacts = _addRecordUrls result₂
    ∧ displayedContacts
        (_executeContactSearchCompleteOk
          (_executeContactSearchCompleteOk s₃ "ab" rAb) "a" rA)
        = _addRecordUrls rAb
    ∧ (_executeOpportunitySearchCompleteOk t₁ u₁ q₁)._searchOpportunities
        = t₁._searchOpportunities
    ∧ (_executeOpportunitySearchCompleteOk t₂ u₂ q₂)._searchOpportunities
        = _addRecordUrls q₂
    ∧ displayedOpportunities
        (_executeOpportunitySearchCompleteOk
          (_executeOpportunitySearchCompleteOk t₃ "ab" pAb) "a" pA)
        = _addRecordUrls pAb := by
  refine ⟨?_, ?_, ?_, ?_, ?_, ?_⟩
  · simp [_executeContactSearchCompleteOk, h₁]
  · simp [_executeContactSearchCompleteOk, h₂]
  · have hne : s₃.contactSearchTerm ≠ "" := by
      intro he; rw [he] at h₃; exact absurd h₃ (by decide)
    simp [_executeContactSearchCompleteOk, h₃, displayedContacts, _isContactSearchActive, hne]
    intro hlen
    exact absurd hlen (by decide)
  · simp [_executeOpportunitySearchCompleteOk, g₁]
  · simp [_executeOpportunitySearchCompleteOk, g₂]
  · have hne : t₃.opportunitySearchTerm ≠ "" := by
      intro he; rw [he] at g₃; exact absurd g₃ (by decide)
    simp [_executeOpportunitySearchCompleteOk, g₃, displayedOpportunities,
      _isOpportunitySearchActive, hne]
    intro hlen
    exact absurd hlen (by decide)

/-- Witness for C1: the race on concrete inputs — term `"ab"` live, the
`"ab"` response lands, then a stale `"a"` response; the displayed rows are
the `"ab"` result. -/
theorem search_last_term_wins_witness :
    jsTrim stAB.contactSearchTerm ≠ "a"
    ∧ jsTrim stAB.contactSearchTerm = "ab"
    ∧ jsTrim stAB.opportunitySearchTerm = "ab"
    ∧ displayedContacts
        (_executeContactSearchCompleteOk
          (_executeContactSearchCompleteOk stAB "ab" [recB]) "a" [recA])
        = _addRecordUrls [recB] :=
  ⟨by decide, by decide, by decide,
    (search_last_term_wins stAB "a" [recA] (by decide) stAB "ab" [recB] (by decide)
      stAB [recA] [recB] (by decide)
      stAB "a" [recA] (by decide) stAB "ab" [recB] (by decide)
      stAB [recA] [recB] (by decide)).2.2.1⟩

/-! ### C2 — initialLoad is atomic across its four sub-fetches -/

/-- A rejected promise. -/
def isErr {α : Type} : Except JsError α → Bool
  | .error _ => true
  | .ok _ => false

/-- C2: if any of the four concurrent sub-fetches of `_loadInitialData`
fails, none of the visible state (paginated rows, total counts, offsets,
infinite-loading flags) changes, and both collections' error flags are set
to the failure. -/
theorem initialLoad_atomic_on_failure
    (s : ComponentState) (cF oF : Except JsError (List SRecord))
    (ccF ocF : Except JsError Nat)
    (h : (isErr cF || isErr oF || isErr ccF || isErr ocF) = true) :
    (_loadInitialData s cF oF ccF ocF)._paginatedContacts = s._paginatedContacts
    ∧ (_loadInitialData s cF oF ccF ocF)._paginatedOpportunities = s._paginatedOpportunities
    ∧ (_loadInitialData s cF oF ccF ocF).totalContactCount = s.totalContactCount
    ∧ (_loadInitialData s cF oF ccF ocF).totalOpportunityCount = s.totalOpportunityCount
    ∧ (_loadInitialData s cF oF ccF ocF)._contactOffset = s._contactOffset
    ∧ (_loadInitialData s cF oF ccF ocF)._opportunityOffset = s._opportunityOffset
    ∧ (_loadInitialData s cF oF ccF ocF).enableContactInfiniteLoading
        = s.enableContactInfiniteLoading
    ∧ (_loadInitialData s cF oF ccF ocF).enableOpportunityInfiniteLoading
        = s.enableOpportunityInfiniteLoading
    ∧ (_loadInitialData s cF oF ccF ocF).contactError.isSome = true
    ∧ (_loadInitialData s cF oF ccF ocF).opportunityError
        = (_loadInitialData s cF oF ccF ocF).contactError := by
  cases cF <;> cases oF <;> cases ccF <;> cases ocF <;>
    simp_all [_loadInitialData, promiseAll4, isErr]

/-- Witness for C2: a concrete run where only the contact-count sub-fetch
rejects. -/
theorem initialLoad_atomic_on_failure_witness :
    (isErr (Except.ok [recA] : Except JsError (List SRecord))
      || isErr (Except.ok [recB] : Except JsError (List SRecord))
      || isErr (Except.error "network" : Except JsError Nat)
      || isErr (Except.ok 1 : Except JsError Nat)) = true
    ∧ ((_loadInitialData initialState (.ok [recA]) (.ok [recB]) (.error "network")
          (.ok 1))._paginatedContacts = initialState._paginatedContacts
      ∧ (_loadInitialData initialState (.ok [recA]) (.ok [recB]) (.error "network")
          (.ok 1))._paginatedOpportunities = initialState._paginatedOpportunities
      ∧ (_loadInitialData initialState (.ok [recA]) (.ok [recB]) (.error "network")
          (.ok 1)).totalContactCount = initialState.totalContactCount
      ∧ (_loadInitialData initialState (.ok [recA]) (.ok [recB]) (.error "network")
          (.ok 1)).totalOpportunityCount = initialState.totalOpportunityCount
      ∧ (_loadInitialData initialState (.ok [recA]) (.ok [recB]) (.error "network")
          (.ok 1))._contactOffset = initialState._contactOffset
      ∧ (_loadInitialData initialState (.ok [recA]) (.ok [recB]) (.error "network")
          (.ok 1))._opportunityOffset = initialState._opportunityOffset
      ∧ (_loadInitialData initialState (.ok [recA]) (.ok [recB]) (.error "network")
          (.ok 1)).enableContactInfiniteLoading = initialState.enableContactInfiniteLoading
      ∧ (_loadInitialData initialState (.ok [recA]) (.ok [recB]) (.error "network")
          (.ok 1)).enableOpportunityInfiniteLoading
            = initialState.enableOpportunityInfiniteLoading
      ∧ (_loadInitialData initialState (.ok [recA]) (.ok [recB]) (.error "network")
          (.ok 1)).contactError.isSome = true
      ∧ (_loadInitialData initialState (.ok [recA]) (.ok [recB]) (.error "network")
          (.ok 1)).opportunityError
            = (_loadInitialData initialState (.ok [recA]) (.ok [recB]) (.error "network")
                (.ok 1)).contactError) :=
  ⟨by decide,
    initialLoad_atomic_on_failure initialState (.ok [recA]) (.ok [recB]) (.error "network")
      (.ok 1) (by decide)⟩

/-! ### C5 — loadMore appends and is guard-protected -/

/-- A component state holding one loaded contact page of a single row. -/
def stOnePage : ComponentState :=
  { initialState with _paginatedContacts := _addRecordUrls [recA], _contactOffset := 1,
                      isLoading := false }

/-- C5: a successful loadMore appends the returned rows to the end of the
existing paginated rows and advances the offset by exactly the number of
rows returned; loadMore is a strict no-op whenever a load for that
collection is in flight or the collection is in search mode. -/
theorem loadMore_appends_and_guards
    (s₁ : ComponentState) (o₁ : Except JsError (List SRecord))
    (h₁ : _isContactSearchActive s₁ = true ∨ s₁._contactsLoading = true)
    (s₂ : ComponentState) (result₂ : List SRecord)
    (h₂a : _isContactSearchActive s₂ = false) (h₂b : s₂._contactsLoading = false)
    (t₁ : ComponentState) (p₁ : Except JsError (List SRecord))
    (g₁ : _isOpportunitySearchActive t₁ = true ∨ t₁._opportunitiesLoading = true)
    (t₂ : ComponentState) (q₂ : List SRecord)
    (g₂a : _isOpportunitySearchActive t₂ = false) (g₂b : t₂._opportunitiesLoading = false) :
    handleContactLoadMore s₁ o₁ = s₁
    ∧ (handleContactLoadMore s₂ (.ok result₂))._paginatedContacts
        = s₂._paginatedContacts ++ _addRecordUrls result₂
    ∧ (handleContactLoadMore s₂ (.ok result₂))._contactOffset
        = s₂._contactOffset + result₂.length
    ∧ handleOpportunityLoadMore t₁ p₁ = t₁
    ∧ (handleOpportunityLoadMore t₂ (.ok q₂))._paginatedOpportunities
        = t₂._paginatedOpportunities ++ _addRecordUrls q₂
    ∧ (handleOpportunityLoadMore t₂ (.ok q₂))._opportunityOffset
        = t₂._opportunityOffset + q₂.length := by
  refine ⟨?_, ?_, ?_, ?_, ?_, ?_⟩
  · rcases h₁ with h | h <;> simp [handleContactLoadMore, h]
  · simp [handleContactLoadMore, h₂a, h₂b, apply_ite]
  · simp [handleContactLoadMore, h₂a, h₂b, apply_ite]
  · rcases g₁ with g | g <;> simp [handleOpportunityLoadMore, g]
  · simp [handleOpportunityLoadMore, g₂a, g₂b, apply_ite]
  · simp [handleOpportunityLoadMore, g₂a, g₂b, apply_ite]

/-- Witness for C5: loadMore during an active search is the identity, and a
loadMore on a one-page state appends the fetched row and advances the
offset. -/
theorem loadMore_appends_and_guards_witness :
    _isContactSearchActive stAB = true
    ∧ _isContactSearchActive stOnePage = false
    ∧ handleContactLoadMore stAB (.ok [recB]) = stAB
    ∧ (handleContactLoadMore stOnePage (.ok [recB]))._paginatedContacts
        = stOnePage._paginatedContacts ++ _addRecordUrls [recB]
    ∧ (handleContactLoadMore stOnePage (.ok [recB]))._contactOffset
        = stOnePage._contactOffset + [recB].length
    ∧ handleOpportunityLoadMore stAB (.ok [recB]) = stAB
    ∧ (handleOpportunityLoadMore stOnePage (.ok [recB]))._paginatedOpportunities
        = stOnePage._paginatedOpportunities ++ _addRecordUrls [recB]
    ∧ (handleOpportunityLoadMore stOnePage (.ok [recB]))._opportunityOffset
        = stOnePage._opportunityOffset + [recB].length :=
  ⟨by decide, by decide,
    (loadMore_appends_and_guards stAB (.ok [recB]) (.inl (by decide))
      stOnePage [recB] (by decide) (by decide)
      stAB (.ok [recB]) (.inl (by decide))
      stOnePage [recB] (by decide) (by decide)).1,
    (loadMore_appends_and_guards stAB (.ok [recB]) (.inl (by decide))
      stOnePage [recB] (by decide) (by decide)
      stAB (.ok [recB]) (.inl (by decide))
      stOnePage [recB] (by decide) (by decide)).2.1,
    (loadMore_appends_and_guards stAB (.ok [recB]) (.inl (by decide))
      stOnePage [recB] (by decide) (by decide)
      stAB (.ok [recB]) (.inl (by decide))
      stOnePage [recB] (by decide) (by decide)).2.2.1,
    (loadMore_appends_and_guards stAB (.ok [recB]) (.inl (by decide))
      stOnePage [recB] (by decide) (by decide)
      stAB (.ok [recB]) (.inl (by decide))
      stOnePage [recB] (by decide) (by decide)).2.2.2.1,
    (loadMore_appends_and_guards stAB (.ok [recB]) (.inl (by decide))
      stOnePage [recB] (by decide) (by decide)
      stAB (.ok [recB]) (.inl (by decide))
      stOnePage [recB] (by decide) (by decide)).2.2.2.2.1,
    (loadMore_appends_and_guards stAB (.ok [recB]) (.inl (by decide))
      stOnePage [recB] (by decide) (by decide)
      stAB (.ok [recB]) (.inl (by decide))
      stOnePage [recB] (by decide) (by decide)).2.2.2.2.2⟩

/-! ### C6 — loadMore failure: fail-closed, but not permanent -/

/-- C6 counterexample: the disabling is not permanent-until-refresh.  After
a failed contact loadMore the flag is off, but a successful row delete (no
refresh involved, search term still blank) reloads the window and turns
infinite loading back on. -/
theorem loadMore_disable_not_permanent :
    (handleContactLoadMore stOnePage (.error "boom")).enableContactInfiniteLoading = false
    ∧ (_deleteRowContact (handleContactLoadMore stOnePage (.error "boom"))
        (.ok ()) (.ok []) (.ok ([recA], 1))).enableContactInfiniteLoading = true
    ∧ (_deleteRowContact (handleContactLoadMore stOnePage (.error "boom"))
        (.ok ()) (.ok []) (.ok ([recA], 1))).contactSearchTerm = "" := by
  decide

/-- C6 (amended): a failed loadMore sets the infinite-loading flag false,
keeps the already-appended rows and the offset, and logs the error;
loadMore itself never re-enables the flag (no silent retry) — but a refresh
or the reload after a successful save/delete may re-derive it true. -/
theorem loadMore_failure_fail_closed
    (s : ComponentState) (e : JsError)
    (ha : _isContactSearchActive s = false) (hb : s._contactsLoading = false)
    (s' : ComponentState) (o' : Except JsError (List SRecord))
    (t : ComponentState) (f : JsError)
    (ga : _isOpportunitySearchActive t = false) (gb : t._opportunitiesLoading = false)
    (t' : ComponentState) (p' : Except JsError (List SRecord)) :
    (handleContactLoadMore s (.error e)).enableContactInfiniteLoading = false
    ∧ (handleContactLoadMore s (.error e))._paginatedContacts = s._paginatedContacts
    ∧ (handleContactLoadMore s (.error e))._contactOffset = s._contactOffset
    ∧ (handleContactLoadMore s (.error e)).consoleErrorCount = s.consoleErrorCount + 1
    ∧ ((handleContactLoadMore s' o').enableContactInfiniteLoading = true
        → s'.enableContactInfiniteLoading = true)
    ∧ (handleOpportunityLoadMore t (.error f)).enableOpportunityInfiniteLoading = false
    ∧ (handleOpportunityLoadMore t (.error f))._paginatedOpportunities = t._paginatedOpportunities
    ∧ (handleOpportunityLoadMore t (.error f))._opportunityOffset = t._opportunityOffset
    ∧ (handleOpportunityLoadMore t (.error f)).consoleErrorCount = t.consoleErrorCount + 1
    ∧ ((handleOpportunityLoadMore t' p').enableOpportunityInfiniteLoading = true
        → t'.enableOpportunityInfiniteLoading = true) := by
  refine ⟨?_, ?_, ?_, ?_, ?_, ?_, ?_, ?_, ?_, ?_⟩
  · simp [handleContactLoadMore, ha, hb]
  · simp [handleContactLoadMore, ha, hb]
  · simp [handleContactLoadMore, ha, hb]
  · simp [handleContactLoadMore, ha, hb]
  · intro henable
    simp only [handleContactLoadMore] at henable
    split at henable
    · exact henable
    · cases o' with
      | ok result =>
        simp only [apply_ite (f := ComponentState.enableContactInfiniteLoading)] at henable
        split at henable
        · exact absurd henable (by simp)
        · exact henable
      | error e => exact absurd henable (by simp)
  · simp [handleOpportunityLoadMore, ga, gb]
  · simp [handleOpportunityLoadMore, ga, gb]
  · simp [handleOpportunityLoadMore, ga, gb]
  · simp [handleOpportunityLoadMore, ga, gb]
  · intro henable
    simp only [handleOpportunityLoadMore] at henable
    split at henable
    · exact henable
    · cases p' with
      | ok result =>
        simp only [apply_ite (f := ComponentState.enableOpportunityInfiniteLoading)] at henable
        split at henable
        · exact absurd henable (by simp)
        · exact henable
      | error e => exact absurd henable (by simp)

/-- Witness for C6 (amended): a concrete failed loadMore on a one-page
state. -/
theorem loadMore_failure_fail_closed_witness :
    _isContactSearchActive stOnePage = false
    ∧ stOnePage._contactsLoading = false
    ∧ (handleContactLoadMore stOnePage (.error "boom")).enableContactInfiniteLoading = false
    ∧ (handleContactLoadMore stOnePage (.error "boom"))._paginatedContacts
        = stOnePage._paginatedContacts
    ∧ (handleContactLoadMore stOnePage (.error "boom"))._contactOffset
        = stOnePage._contactOffset
    ∧ (handleContactLoadMore stOnePage (.error "boom")).consoleErrorCount
        = stOnePage.consoleErrorCount + 1 :=
  ⟨by decide, by decide,
    (loadMore_failure_fail_closed stOnePage "boom" (by decide) (by decide)
      stOnePage (.error "boom") stOnePage "boom" (by decide) (by decide)
      stOnePage (.error "boom")).1,
    (loadMore_failure_fail_closed stOnePage "boom" (by decide) (by decide)
      stOnePage (.error "boom") stOnePage "boom" (by decide) (by decide)
      stOnePage (.error "boom")).2.1,
    (loadMore_failure_fail_closed stOnePage "boom" (by decide) (by decide)
      stOnePage (.error "boom") stOnePage "boom" (by decide) (by decide)
      stOnePage (.error "boom")).2.2.1,
    (loadMore_failure_fail_closed stOnePage "boom" (by decide) (by decide)
      stOnePage (.error "boom") stOnePage "boom" (by decide) (by decide)
      stOnePage (.error "boom")).2.2.2.1⟩

/-! ### Frame lemmas: fields each operation leaves untouched -/

/-- `_executeContactSearch` only writes `_searchContacts`,
`_isContactSearching` and the console log. -/
theorem executeContactSearch_frame (s : ComponentState) (term : String)
    (o : Except JsError (List SRecord)) :
    (_executeContactSearch s term o)._paginatedContacts = s._paginatedContacts
    ∧ (_executeContactSearch s term o)._paginatedOpportunities = s._paginatedOpportunities
    ∧ (_executeContactSearch s term o)._contactOffset = s._contactOffset
    ∧ (_executeContactSearch s term o)._opportunityOffset = s._opportunityOffset
    ∧ (_executeContactSearch s term o).contactDraftValues = s.contactDraftValues
    ∧ (_executeContactSearch s term o).opportunityDraftValues = s.opportunityDraftValues
    ∧ (_executeContactSearch s term o).contactSearchTerm = s.contactSearchTerm
    ∧ (_executeContactSearch s term o).opportunitySearchTerm = s.opportunitySearchTerm
    ∧ (_executeContactSearch s term o).enableContactInfiniteLoading
        = s.enableContactInfiniteLoading
    ∧ (_executeContactSearch s term o).enableOpportunityInfiniteLoading
        = s.enableOpportunityInfiniteLoading
    ∧ (_executeContactSearch s term o)._searchOpportunities = s._searchOpportunities := by
  cases o <;>
    simp [_executeContactSearch, _executeContactSearchStart, _executeContactSearchCompleteOk,
      _executeContactSearchCompleteErr, apply_ite]

/-- `_executeOpportunitySearch` only writes `_searchOpportunities`,
`_isOpportunitySearching` and the console log. -/
theorem executeOpportunitySearch_frame (s : ComponentState) (term : String)
    (o : Except JsError (List SRecord)) :
    (_executeOpportunitySearch s term o)._paginatedContacts = s._paginatedContacts
    ∧ (_executeOpportunitySearch s term o)._paginatedOpportunities = s._paginatedOpportunities
    ∧ (_executeOpportunitySearch s term o)._contactOffset = s._contactOffset
    ∧ (_executeOpportunitySearch s term o)._opportunityOffset = s._opportunityOffset
    ∧ (_executeOpportunitySearch s term o).contactDraftValues = s.contactDraftValues
    ∧ (_executeOpportunitySearch s term o).opportunityDraftValues = s.opportunityDraftValues
    ∧ (_executeOpportunitySearch s term o).contactSearchTerm = s.contactSearchTerm
    ∧ (_executeOpportunitySearch s term o).opportunitySearchTerm = s.opportunitySearchTerm
    ∧ (_executeOpportunitySearch s term o).enableContactInfiniteLoading
        = s.enableContactInfiniteLoading
    ∧ (_executeOpportunitySearch s term o).enableOpportunityInfiniteLoading
        = s.enableOpportunityInfiniteLoading
    ∧ (_executeOpportunitySearch s term o)._searchContacts = s._searchContacts := by
  cases o <;>
    simp [_executeOpportunitySearch, _executeOpportunitySearchStart,
      _executeOpportunitySearchCompleteOk, _executeOpportunitySearchCompleteErr, apply_ite]

/-- Field characterization of the contact-window reload. -/
theorem reloadDataContactOk_frame (s : ComponentState) (r : List SRecord) (c : Nat) :
    (_reloadDataContactOk s r c)._paginatedContacts = _addRecordUrls r
    ∧ (_reloadDataContactOk s r c)._contactOffset = r.length
    ∧ (_reloadDataContactOk s r c)._paginatedOpportunities = s._paginatedOpportunities
    ∧ (_reloadDataContactOk s r c)._opportunityOffset = s._opportunityOffset
    ∧ (_reloadDataContactOk s r c).contactDraftValues = s.contactDraftValues
    ∧ (_reloadDataContactOk s r c).opportunityDraftValues = s.opportunityDraftValues
    ∧ (_reloadDataContactOk s r c)._searchContacts = s._searchContacts
    ∧ (_reloadDataContactOk s r c)._searchOpportunities = s._searchOpportunities
    ∧ (_reloadDataContactOk s r c).contactSearchTerm = s.contactSearchTerm
    ∧ (_reloadDataContactOk s r c).opportunitySearchTerm = s.opportunitySearchTerm := by
  simp [_reloadDataContactOk]

/-- Field characterization of the opportunity-window reload. -/
theorem reloadDataOpportunityOk_frame (s : ComponentState) (r : List SRecord) (c : Nat) :
    (_reloadDataOpportunityOk s r c)._paginatedOpportunities = _addRecordUrls r
    ∧ (_reloadDataOpportunityOk s r c)._opportunityOffset = r.length
    ∧ (_reloadDataOpportunityOk s r c)._paginatedContacts = s._paginatedContacts
    ∧ (_reloadDataOpportunityOk s r c)._contactOffset = s._contactOffset
    ∧ (_reloadDataOpportunityOk s r c).contactDraftValues = s.contactDraftValues
    ∧ (_reloadDataOpportunityOk s r c).opportunityDraftValues = s.opportunityDraftValues
    ∧ (_reloadDataOpportunityOk s r c)._searchContacts = s._searchContacts
    ∧ (_reloadDataOpportunityOk s r c)._searchOpportunities = s._searchOpportunities
    ∧ (_reloadDataOpportunityOk s r c).contactSearchTerm = s.contactSearchTerm
    ∧ (_reloadDataOpportunityOk s r c).opportunitySearchTerm = s.opportunitySearchTerm := by
  simp [_reloadDataOpportunityOk]

/-- A rejected update batch makes `handleContactSave` touch nothing but
`isSaving`. -/
theorem handleContactSave_err_eq (s : ComponentState) (d : List Draft)
    (us : List (Except JsError Unit)) (so : Except JsError (List SRecord))
    (ro : Except JsError (List SRecord × Nat)) (e : JsError)
    (h : firstError us = some e) :
    handleContactSave s d us so ro = { s with isSaving := false } := by
  unfold handleContactSave; rw [h]

/-- A rejected update batch makes `handleOpportunitySave` touch nothing but
`isSaving`. -/
theorem handleOpportunitySave_err_eq (s : ComponentState) (d : List Draft)
    (us : List (Except JsError Unit)) (so : Except JsError (List SRecord))
    (ro : Except JsError (List SRecord × Nat)) (e : JsError)
    (h : firstError us = some e) :
    handleOpportunitySave s d us so ro = { s with isSaving := false } := by
  unfold handleOpportunitySave; rw [h]

/-! ### C7 — save is atomic for drafts and displayed rows -/

/-- A pending inline edit used by witnesses. -/
def draftA : Draft := { Id := "003A", fields := [("Title", .str "CTO")] }

/-- A one-page state with pending drafts on both collections. -/
def stDrafts : ComponentState :=
  { stOnePage with contactDraftValues := [draftA], opportunityDraftValues := [draftA] }

/-- C7: if any per-row update of a save batch fails, the pending drafts are
kept and the displayed rows (paginated and search) are unchanged; drafts
are cleared exactly on success of the whole batch. -/
theorem save_atomic_wrt_drafts_and_rows
    (s : ComponentState) (d : List Draft) (us : List (Except JsError Unit))
    (so : Except JsError (List SRecord)) (ro : Except JsError (List SRecord × Nat))
    (h : firstError us ≠ none)
    (s₂ : ComponentState) (d₂ : List Draft) (us₂ : List (Except JsError Unit))
    (so₂ : Except JsError (List SRecord)) (ro₂ : Except JsError (List SRecord × Nat))
    (h₂ : firstError us₂ = none)
    (t : ComponentState) (b : List Draft) (vs : List (Except JsError Unit))
    (po : Except JsError (List SRecord)) (qo : Except JsError (List SRecord × Nat))
    (g : firstError vs ≠ none)
    (t₂ : ComponentState) (b₂ : List Draft) (vs₂ : List (Except JsError Unit))
    (po₂ : Except JsError (List SRecord)) (qo₂ : Except JsError (List SRecord × Nat))
    (g₂ : firstError vs₂ = none) :
    (handleContactSave s d us so ro).contactDraftValues = s.contactDraftValues
    ∧ (handleContactSave s d us so ro)._paginatedContacts = s._paginatedContacts
    ∧ (handleContactSave s d us so ro)._searchContacts = s._searchContacts
    ∧ displayedContacts (handleContactSave s d us so ro) = displayedContacts s
    ∧ (handleContactSave s₂ d₂ us₂ so₂ ro₂).contactDraftValues = []
    ∧ (handleOpportunitySave t b vs po qo).opportunityDraftValues = t.opportunityDraftValues
    ∧ (handleOpportunitySave t b vs po qo)._paginatedOpportunities = t._paginatedOpportunities
    ∧ (handleOpportunitySave t b vs po qo)._searchOpportunities = t._searchOpportunities
    ∧ displayedOpportunities (handleOpportunitySave t b vs po qo) = displayedOpportunities t
    ∧ (handleOpportunitySave t₂ b₂ vs₂ po₂ qo₂).opportunityDraftValues = [] := by
  obtain ⟨e, he⟩ := Option.ne_none_iff_exists'.mp h
  obtain ⟨f, gf⟩ := Option.ne_none_iff_exists'.mp g
  refine ⟨?_, ?_, ?_, ?_, ?_, ?_, ?_, ?_, ?_, ?_⟩
  · rw [handleContactSave_err_eq s d us so ro e he]
  · rw [handleContactSave_err_eq s d us so ro e he]
  · rw [handleContactSave_err_eq s d us so ro e he]
  · rw [handleContactSave_err_eq s d us so ro e he]
    simp [displayedContacts, _isContactSearchActive]
  · unfold handleContactSave
    rw [h₂]
    cases ro₂ with
    | ok rc =>
      obtain ⟨r, c⟩ := rc
      simp only [reloadDataContactOk_frame, apply_ite (f := ComponentState.contactDraftValues),
        executeContactSearch_frame, ite_self]
    | error e₂ =>
      simp only [apply_ite (f := ComponentState.contactDraftValues),
        executeContactSearch_frame, ite_self]
  · rw [handleOpportunitySave_err_eq t b vs po qo f gf]
  · rw [handleOpportunitySave_err_eq t b vs po qo f gf]
  · rw [handleOpportunitySave_err_eq t b vs po qo f gf]
  · rw [handleOpportunitySave_err_eq t b vs po qo f gf]
    simp [displayedOpportunities, _isOpportunitySearchActive]
  · unfold handleOpportunitySave
    rw [g₂]
    cases qo₂ with
    | ok rc =>
      obtain ⟨r, c⟩ := rc
      simp only [reloadDataOpportunityOk_frame,
        apply_ite (f := ComponentState.opportunityDraftValues),
        executeOpportunitySearch_frame, ite_self]
    | error e₂ =>
      simp only [apply_ite (f := ComponentState.opportunityDraftValues),
        executeOpportunitySearch_frame, ite_self]

/-- Witness for C7: one rejected update keeps the concrete draft and rows;
an accepted batch clears the drafts. -/
theorem save_atomic_wrt_drafts_and_rows_witness :
    (firstError [Except.error "reject"] ≠ none)
    ∧ (firstError [Except.ok ()] = none)
    ∧ (handleContactSave stDrafts [draftA] [.error "reject"] (.ok [])
        (.ok ([recA], 1))).contactDraftValues = stDrafts.contactDraftValues
    ∧ (handleContactSave stDrafts [draftA] [.error "reject"] (.ok [])
        (.ok ([recA], 1)))._paginatedContacts = stDrafts._paginatedContacts
    ∧ (handleContactSave stDrafts [draftA] [.ok ()] (.ok [])
        (.ok ([recA], 1))).contactDraftValues = []
    ∧ (handleOpportunitySave stDrafts [draftA] [.error "reject"] (.ok [])
        (.ok ([recA], 1))).opportunityDraftValues = stDrafts.opportunityDraftValues
    ∧ (handleOpportunitySave stDrafts [draftA] [.ok ()] (.ok [])
        (.ok ([recA], 1))).opportunityDraftValues = [] :=
  ⟨by decide, by decide,
    (save_atomic_wrt_drafts_and_rows stDrafts [draftA] [.error "reject"] (.ok [])
      (.ok ([recA], 1)) (by decide)
      stDrafts [draftA] [.ok ()] (.ok []) (.ok ([recA], 1)) (by decide)
      stDrafts [draftA] [.error "reject"] (.ok []) (.ok ([recA], 1)) (by decide)
      stDrafts [draftA] [.ok ()] (.ok []) (.ok ([recA], 1)) (by decide)).1,
    (save_atomic_wrt_drafts_and_rows stDrafts [draftA] [.error "reject"] (.ok [])
      (.ok ([recA], 1)) (by decide)
      stDrafts [draftA] [.ok ()] (.ok []) (.ok ([recA], 1)) (by decide)
      stDrafts [draftA] [.error "reject"] (.ok []) (.ok ([recA], 1)) (by decide)
      stDrafts [draftA] [.ok ()] (.ok []) (.ok ([recA], 1)) (by decide)).2.1,
    (save_atomic_wrt_drafts_and_rows stDrafts [draftA] [.error "reject"] (.ok [])
      (.ok ([recA], 1)) (by decide)
      stDrafts [draftA] [.ok ()] (.ok []) (.ok ([recA], 1)) (by decide)
      stDrafts [draftA] [.error "reject"] (.ok []) (.ok ([recA], 1)) (by decide)
      stDrafts [draftA] [.ok ()] (.ok []) (.ok ([recA], 1)) (by decide)).2.2.2.2.1,
    (save_atomic_wrt_drafts_and_rows stDrafts [draftA] [.error "reject"] (.ok [])
      (.ok ([recA], 1)) (by decide)
      stDrafts [draftA] [.ok ()] (.ok []) (.ok ([recA], 1)) (by decide)
      stDrafts [draftA] [.error "reject"] (.ok []) (.ok ([recA], 1)) (by decide)
      stDrafts [draftA] [.ok ()] (.ok []) (.ok ([recA], 1)) (by decide)).2.2.2.2.2.1,
    (save_atomic_wrt_drafts_and_rows stDrafts [draftA] [.error "reject"] (.ok [])
      (.ok ([recA], 1)) (by decide)
      stDrafts [draftA] [.ok ()] (.ok []) (.ok ([recA], 1)) (by decide)
      stDrafts [draftA] [.error "reject"] (.ok []) (.ok ([recA], 1)) (by decide)
      stDrafts [draftA] [.ok ()] (.ok []) (.ok ([recA], 1)) (by decide)).2.2.2.2.2.2.2.2.2⟩

/-! ### C8 — clearing the search term is synchronous and lossless -/

theorem handleContactSearch_frame (s : ComponentState) (value : String) :
    (handleContactSearch s value)._paginatedContacts = s._paginatedContacts
    ∧ (handleContactSearch s value)._contactOffset = s._contactOffset
    ∧ (handleContactSearch s value).enableContactInfiniteLoading
        = s.enableContactInfiniteLoading := by
  simp [handleContactSearch, apply_ite]

theorem handleOpportunitySearch_frame (s : ComponentState) (value : String) :
    (handleOpportunitySearch s value)._paginatedOpportunities = s._paginatedOpportunities
    ∧ (handleOpportunitySearch s value)._opportunityOffset = s._opportunityOffset
    ∧ (handleOpportunitySearch s value).enableOpportunityInfiniteLoading
        = s.enableOpportunityInfiniteLoading := by
  simp [handleOpportunitySearch, apply_ite]

theorem contactTimerFire_frame (s : ComponentState) (o : Except JsError (List SRecord)) :
    (contactTimerFire s o)._paginatedContacts = s._paginatedContacts
    ∧ (contactTimerFire s o)._contactOffset = s._contactOffset
    ∧ (contactTimerFire s o).enableContactInfiniteLoading = s.enableContactInfiniteLoading := by
  rcases ht : s._contactDebounceTimer with _ | v <;>
    simp [contactTimerFire, ht, executeContactSearch_frame]

theorem opportunityTimerFire_frame (s : ComponentState) (o : Except JsError (List SRecord)) :
    (opportunityTimerFire s o)._paginatedOpportunities = s._paginatedOpportunities
    ∧ (opportunityTimerFire s o)._opportunityOffset = s._opportunityOffset
    ∧ (opportunityTimerFire s o).enableOpportunityInfiniteLoading
        = s.enableOpportunityInfiniteLoading := by
  rcases ht : s._opportunityDebounceTimer with _ | v <;>
    simp [opportunityTimerFire, ht, executeOpportunitySearch_frame]

/-- C8: a keystroke whose value trims to empty synchronously cancels the
pending debounce timer, empties the search rows with no request armed, and
immediately makes the paginated rows the displayed view; the paginated
rows, offset and infinite-loading flag survive a whole search / fire /
clear cycle unchanged. -/
theorem clear_search_synchronous
    (s : ComponentState) (value : String) (h : jsTrim value = "")
    (s₃ : ComponentState) (v₃ : String) (o₃ : Except JsError (List SRecord))
    (v₄ : String) (h₄ : jsTrim v₄ = "")
    (t : ComponentState) (w : String) (g : jsTrim w = "")
    (t₃ : ComponentState) (w₃ : String) (p₃ : Except JsError (List SRecord))
    (w₄ : String) (g₄ : jsTrim w₄ = "") :
    (handleContactSearch s value)._contactDebounceTimer = none
    ∧ (handleContactSearch s value)._searchContacts = []
    ∧ (handleContactSearch s value)._isContactSearching = false
    ∧ displayedContacts (handleContactSearch s value) = s._paginatedContacts
    ∧ (handleContactSearch s value)._paginatedContacts = s._paginatedContacts
    ∧ (handleContactSearch s value)._contactOffset = s._contactOffset
    ∧ (handleContactSearch s value).enableContactInfiniteLoading
        = s.enableContactInfiniteLoading
    ∧ (handleContactSearch (contactTimerFire (handleContactSearch s₃ v₃) o₃) v₄)._paginatedContacts
        = s₃._paginatedContacts
    ∧ (handleContactSearch (contactTimerFire (handleContactSearch s₃ v₃) o₃) v₄)._contactOffset
        = s₃._contactOffset
    ∧ (handleContactSearch (contactTimerFire (handleContactSearch s₃ v₃) o₃)
          v₄).enableContactInfiniteLoading = s₃.enableContactInfiniteLoading
    ∧ displayedContacts (handleContactSearch (contactTimerFire (handleContactSearch s₃ v₃) o₃) v₄)
        = s₃._paginatedContacts
    ∧ (handleOpportunitySearch t w)._opportunityDebounceTimer = none
    ∧ (handleOpportunitySearch t w)._searchOpportunities = []
    ∧ (handleOpportunitySearch t w)._isOpportunitySearching = false
    ∧ displayedOpportunities (handleOpportunitySearch t w) = t._paginatedOpportunities
    ∧ (handleOpportunitySearch t w)._paginatedOpportunities = t._paginatedOpportunities
    ∧ (handleOpportunitySearch
          (opportunityTimerFire (handleOpportunitySearch t₃ w₃) p₃)
          w₄)._paginatedOpportunities = t₃._paginatedOpportunities
    ∧ (handleOpportunitySearch
          (opportunityTimerFire (handleOpportunitySearch t₃ w₃) p₃)
          w₄)._opportunityOffset = t₃._opportunityOffset
    ∧ displayedOpportunities
          (handleOpportunitySearch (opportunityTimerFire (handleOpportunitySearch t₃ w₃) p₃) w₄)
        = t₃._paginatedOpportunities := by
  refine ⟨?_, ?_, ?_, ?_, ?_, ?_, ?_, ?_, ?_, ?_, ?_, ?_, ?_, ?_, ?_, ?_, ?_, ?_, ?_⟩
  · simp [handleContactSearch, h]
  · simp [handleContactSearch, h]
  · simp [handleContactSearch, h]
  · simp [handleContactSearch, h, displayedContacts, _isContactSearchActive]
  · simp [handleContactSearch, h]
  · simp [handleContactSearch, h]
  · simp [handleContactSearch, h]
  · simp [handleContactSearch_frame, contactTimerFire_frame]
  · simp [handleContactSearch_frame, contactTimerFire_frame]
  · simp [handleContactSearch_frame, contactTimerFire_frame]
  · simp [displayedContacts, _isContactSearchActive, handleContactSearch, h₄, apply_ite,
      handleContactSearch_frame, contactTimerFire_frame]
  · simp [handleOpportunitySearch, g]
  · simp [handleOpportunitySearch, g]
  · simp [handleOpportunitySearch, g]
  · simp [handleOpportunitySearch, g, displayedOpportunities, _isOpportunitySearchActive]
  · simp [handleOpportunitySearch, g]
  · simp [handleOpportunitySearch_frame, opportunityTimerFire_frame]
  · simp [handleOpportunitySearch_frame, opportunityTimerFire_frame]
  · simp [displayedOpportunities, _isOpportunitySearchActive, handleOpportunitySearch, g₄,
      apply_ite, handleOpportunitySearch_frame, opportunityTimerFire_frame]

/-- Witness for C8: type `"bea"`, let the timer fire with a result, then
clear with a whitespace-only value; the paginated one-page window is back,
untouched. -/
theorem clear_search_synchronous_witness :
    jsTrim " " = ""
    ∧ displayedContacts
        (handleContactSearch (contactTimerFire (handleContactSearch stOnePage "bea") (.ok [recB]))
          " ")
        = stOnePage._paginatedContacts
    ∧ (handleContactSearch
        (contactTimerFire (handleContactSearch stOnePage "bea") (.ok [recB]))
        " ")._contactOffset = stOnePage._contactOffset :=
  ⟨by decide,
    (clear_search_synchronous stOnePage " " (by decide) stOnePage "bea" (.ok [recB]) " "
      (by decide) stOnePage " " (by decide) stOnePage "bea" (.ok [recB]) " "
      (by decide)).2.2.2.2.2.2.2.2.2.2.1,
    (clear_search_synchronous stOnePage " " (by decide) stOnePage "bea" (.ok [recB]) " "
      (by decide) stOnePage " " (by decide) stOnePage "bea" (.ok [recB]) " "
      (by decide)).2.2.2.2.2.2.2.2.1⟩

/-! ### C3 — page-size arithmetic of initialLoad and loadMore -/

/-- Field characterization of a fully successful `_loadInitialData`. -/
theorem loadInitialData_ok_frame (s : ComponentState) (ra rb : List SRecord) (cc oc : Nat) :
    (_loadInitialData s (.ok ra) (.ok rb) (.ok cc) (.ok oc))._paginatedContacts
        = _addRecordUrls ra
    ∧ (_loadInitialData s (.ok ra) (.ok rb) (.ok cc) (.ok oc))._paginatedOpportunities
        = _addRecordUrls rb
    ∧ (_loadInitialData s (.ok ra) (.ok rb) (.ok cc) (.ok oc))._contactOffset = ra.length
    ∧ (_loadInitialData s (.ok ra) (.ok rb) (.ok cc) (.ok oc))._opportunityOffset = rb.length
    ∧ (_loadInitialData s (.ok ra) (.ok rb) (.ok cc) (.ok oc)).enableContactInfiniteLoading
        = decide (ra.length ≥ PAGE_SIZE)
    ∧ (_loadInitialData s (.ok ra) (.ok rb) (.ok cc) (.ok oc)).enableOpportunityInfiniteLoading
        = decide (rb.length ≥ PAGE_SIZE)
    ∧ (_loadInitialData s (.ok ra) (.ok rb) (.ok cc) (.ok oc)).totalContactCount = cc
    ∧ (_loadInitialData s (.ok ra) (.ok rb) (.ok cc) (.ok oc)).totalOpportunityCount = oc
    ∧ (_loadInitialData s (.ok ra) (.ok rb) (.ok cc) (.ok oc)).contactSearchTerm
        = s.contactSearchTerm
    ∧ (_loadInitialData s (.ok ra) (.ok rb) (.ok cc) (.ok oc)).opportunitySearchTerm
        = s.opportunitySearchTerm
    ∧ (_loadInitialData s (.ok ra) (.ok rb) (.ok cc) (.ok oc))._contactsLoading
        = s._contactsLoading
    ∧ (_loadInitialData s (.ok ra) (.ok rb) (.ok cc) (.ok oc))._opportunitiesLoading
        = s._opportunitiesLoading := by
  simp [_loadInitialData, promiseAll4]

/-- Field characterization of a successful, unguarded contact loadMore. -/
theorem handleContactLoadMore_ok_frame (s : ComponentState) (result : List SRecord)
    (ha : _isContactSearchActive s = false) (hb : s._contactsLoading = false) :
    (handleContactLoadMore s (.ok result))._paginatedContacts
        = s._paginatedContacts ++ _addRecordUrls result
    ∧ (handleContactLoadMore s (.ok result))._contactOffset
        = s._contactOffset + result.length
    ∧ (handleContactLoadMore s (.ok result)).enableContactInfiniteLoading
        = (if result.length < PAGE_SIZE then false else s.enableContactInfiniteLoading)
    ∧ (handleContactLoadMore s (.ok result)).contactSearchTerm = s.contactSearchTerm
    ∧ (handleContactLoadMore s (.ok result))._contactsLoading = false := by
  refine ⟨?_, ?_, ?_, ?_, ?_⟩ <;> simp [handleContactLoadMore, ha, hb, apply_ite]

/-- Length of a gateway page. -/
theorem fetchPage_length (server : List SRecord) (p o : Nat) :
    (fetchPage server p o).length = min p (server.length - o) := by
  simp [fetchPage]

/-- Field characterization of a successful, unguarded opportunity
loadMore. -/
theorem handleOpportunityLoadMore_ok_frame (s : ComponentState) (result : List SRecord)
    (ha : _isOpportunitySearchActive s = false) (hb : s._opportunitiesLoading = false) :
    (handleOpportunityLoadMore s (.ok result))._paginatedOpportunities
        = s._paginatedOpportunities ++ _addRecordUrls result
    ∧ (handleOpportunityLoadMore s (.ok result))._opportunityOffset
        = s._opportunityOffset + result.length
    ∧ (handleOpportunityLoadMore s (.ok result)).enableOpportunityInfiniteLoading
        = (if result.length < PAGE_SIZE then false else s.enableOpportunityInfiniteLoading)
    ∧ (handleOpportunityLoadMore s (.ok result)).opportunitySearchTerm = s.opportunitySearchTerm
    ∧ (handleOpportunityLoadMore s (.ok result))._opportunitiesLoading = false := by
  refine ⟨?_, ?_, ?_, ?_, ?_⟩ <;> simp [handleOpportunityLoadMore, ha, hb, apply_ite]

/-- Spec section 8 scenario harness: `initialLoad()` against a concrete
server collection, both counts exact. -/
def scenarioS1 (server : List SRecord) : ComponentState :=
  _loadInitialData initialState (.ok (fetchPage server PAGE_SIZE 0))
    (.ok (fetchPage server PAGE_SIZE 0)) (.ok server.length) (.ok server.length)

/-- First contact `loadMore()` of the scenario. -/
def scenarioS2c (server : List SRecord) : ComponentState :=
  handleContactLoadMore (scenarioS1 server)
    (.ok (fetchPage server PAGE_SIZE (scenarioS1 server)._contactOffset))

/-- Second contact `loadMore()` of the scenario. -/
def scenarioS3c (server : List SRecord) : ComponentState :=
  handleContactLoadMore (scenarioS2c server)
    (.ok (fetchPage server PAGE_SIZE (scenarioS2c server)._contactOffset))

/-- First opportunity `loadMore()` of the scenario. -/
def scenarioS2o (server : List SRecord) : ComponentState :=
  handleOpportunityLoadMore (scenarioS1 server)
    (.ok (fetchPage server PAGE_SIZE (scenarioS1 server)._opportunityOffset))

/-- Second opportunity `loadMore()` of the scenario. -/
def scenarioS3o (server : List SRecord) : ComponentState :=
  handleOpportunityLoadMore (scenarioS2o server)
    (.ok (fetchPage server PAGE_SIZE (scenarioS2o server)._opportunityOffset))

/-- C3: after a successful initialLoad the offset equals the number of rows
returned and (whenever the gateway honours the page size, returning at most
`PAGE_SIZE` rows) infinite loading is enabled exactly when a full page came
back; against a 120-row server collection the loaded window grows
50 / 100 / 120 with infinite loading turning off on the short page. -/
theorem initialLoad_pagination_arithmetic
    (sg : ComponentState) (ra rb : List SRecord) (cc oc : Nat)
    (hra : ra.length ≤ PAGE_SIZE) (hrb : rb.length ≤ PAGE_SIZE)
    (server : List SRecord) (hserver : server.length = 120) :
    (_loadInitialData sg (.ok ra) (.ok rb) (.ok cc) (.ok oc))._contactOffset = ra.length
    ∧ (_loadInitialData sg (.ok ra) (.ok rb) (.ok cc) (.ok oc))._paginatedContacts.length
        = ra.length
    ∧ ((_loadInitialData sg (.ok ra) (.ok rb) (.ok cc) (.ok oc)).enableContactInfiniteLoading
        = true ↔ ra.length = PAGE_SIZE)
    ∧ (_loadInitialData sg (.ok ra) (.ok rb) (.ok cc) (.ok oc))._opportunityOffset = rb.length
    ∧ (_loadInitialData sg (.ok ra) (.ok rb) (.ok cc) (.ok oc))._paginatedOpportunities.length
        = rb.length
    ∧ ((_loadInitialData sg (.ok ra) (.ok rb) (.ok cc) (.ok oc)).enableOpportunityInfiniteLoading
        = true ↔ rb.length = PAGE_SIZE)
    ∧ (scenarioS1 server)._paginatedContacts.length = 50
    ∧ (scenarioS1 server).enableContactInfiniteLoading = true
    ∧ (scenarioS1 server)._contactOffset = 50
    ∧ (scenarioS2c server)._paginatedContacts.length = 100
    ∧ (scenarioS2c server).enableContactInfiniteLoading = true
    ∧ (scenarioS2c server)._contactOffset = 100
    ∧ (scenarioS3c server)._paginatedContacts.length = 120
    ∧ (scenarioS3c server).enableContactInfiniteLoading = false
    ∧ (scenarioS3c server)._contactOffset = 120
    ∧ (scenarioS1 server)._paginatedOpportunities.length = 50
    ∧ (scenarioS1 server).enableOpportunityInfiniteLoading = true
    ∧ (scenarioS1 server)._opportunityOffset = 50
    ∧ (scenarioS2o server)._paginatedOpportunities.length = 100
    ∧ (scenarioS2o server).enableOpportunityInfiniteLoading = true
    ∧ (scenarioS2o server)._opportunityOffset = 100
    ∧ (scenarioS3o server)._paginatedOpportunities.length = 120
    ∧ (scenarioS3o server).enableOpportunityInfiniteLoading = false
    ∧ (scenarioS3o server)._opportunityOffset = 120 := by
  obtain ⟨g1, g2, g3, g4, g5, g6, g7, g8, g9, g10, g11, g12⟩ :=
    loadInitialData_ok_frame sg ra rb cc oc
  obtain ⟨a1, a2, a3, a4, a5, a6, a7, a8, a9, a10, a11, a12⟩ :=
    loadInitialData_ok_frame initialState (fetchPage server PAGE_SIZE 0)
      (fetchPage server PAGE_SIZE 0) server.length server.length
  have hf1 : (fetchPage server PAGE_SIZE 0).length = 50 := by
    rw [fetchPage_length]; simp [PAGE_SIZE]; omega
  have h1rows : (scenarioS1 server)._paginatedContacts.length = 50 := by
    unfold scenarioS1; rw [a1]; simp only [_addRecordUrls, List.length_map]; omega
  have h1off : (scenarioS1 server)._contactOffset = 50 := by
    unfold scenarioS1; rw [a3]; omega
  have h1en : (scenarioS1 server).enableContactInfiniteLoading = true := by
    unfold scenarioS1; rw [a5, hf1]; simp [PAGE_SIZE]
  have hterm1 : (scenarioS1 server).contactSearchTerm = "" := by
    unfold scenarioS1; rw [a9]; try rfl
  have h1act : _isContactSearchActive (scenarioS1 server) = false := by
    simp [_isContactSearchActive, hterm1]
  have h1load : (scenarioS1 server)._contactsLoading = false := by
    unfold scenarioS1; rw [a11]; try rfl
  have h1orows : (scenarioS1 server)._paginatedOpportunities.length = 50 := by
    unfold scenarioS1; rw [a2]; simp only [_addRecordUrls, List.length_map]; omega
  have h1ooff : (scenarioS1 server)._opportunityOffset = 50 := by
    unfold scenarioS1; rw [a4]; omega
  have h1oen : (scenarioS1 server).enableOpportunityInfiniteLoading = true := by
    unfold scenarioS1; rw [a6, hf1]; simp [PAGE_SIZE]
  have hoterm1 : (scenarioS1 server).opportunitySearchTerm = "" := by
    unfold scenarioS1; rw [a10]; try rfl
  have h1oact : _isOpportunitySearchActive (scenarioS1 server) = false := by
    simp [_isOpportunitySearchActive, hoterm1]
  have h1oload : (scenarioS1 server)._opportunitiesLoading = false := by
    unfold scenarioS1; rw [a12]; try rfl
  obtain ⟨b1, b2, b3, b4, b5⟩ :=
    handleContactLoadMore_ok_frame (scenarioS1 server)
      (fetchPage server PAGE_SIZE (scenarioS1 server)._contactOffset) h1act h1load
  have hf2 : (fetchPage server PAGE_SIZE (scenarioS1 server)._contactOffset).length = 50 := by
    rw [h1off, fetchPage_length]; simp [PAGE_SIZE]; omega
  have h2rows : (scenarioS2c server)._paginatedContacts.length = 100 := by
    unfold scenarioS2c; rw [b1]
    simp only [List.length_append, _addRecordUrls, List.length_map]
    omega
  have h2off : (scenarioS2c server)._contactOffset = 100 := by
    unfold scenarioS2c; rw [b2]; omega
  have h2en : (scenarioS2c server).enableContactInfiniteLoading = true := by
    unfold scenarioS2c; rw [b3, hf2, h1en]; simp [PAGE_SIZE]
  have hterm2 : (scenarioS2c server).contactSearchTerm = "" := by
    unfold scenarioS2c; rw [b4]; exact hterm1
  have h2act : _isContactSearchActive (scenarioS2c server) = false := by
    simp [_isContactSearchActive, hterm2]
  have h2load : (scenarioS2c server)._contactsLoading = false := by
    unfold scenarioS2c; rw [b5]
  obtain ⟨c1, c2, c3, c4, c5⟩ :=
    handleContactLoadMore_ok_frame (scenarioS2c server)
      (fetchPage server PAGE_SIZE (scenarioS2c server)._contactOffset) h2act h2load
  have hf3 : (fetchPage server PAGE_SIZE (scenarioS2c server)._contactOffset).length = 20 := by
    rw [h2off, fetchPage_length]; simp [PAGE_SIZE]; omega
  have h3rows : (scenarioS3c server)._paginatedContacts.length = 120 := by
    unfold scenarioS3c; rw [c1]
    simp only [List.length_append, _addRecordUrls, List.length_map]
    omega
  have h3off : (scenarioS3c server)._contactOffset = 120 := by
    unfold scenarioS3c; rw [c2]; omega
  have h3en : (scenarioS3c server).enableContactInfiniteLoading = false := by
    unfold scenarioS3c; rw [c3, hf3]; simp [PAGE_SIZE]
  obtain ⟨d1, d2, d3, d4, d5⟩ :=
    handleOpportunityLoadMore_ok_frame (scenarioS1 server)
      (fetchPage server PAGE_SIZE (scenarioS1 server)._opportunityOffset) h1oact h1oload
  have hg2 : (fetchPage server PAGE_SIZE (scenarioS1 server)._opportunityOffset).length = 50 := by
    rw [h1ooff, fetchPage_length]; simp [PAGE_SIZE]; omega
  have h2orows : (scenarioS2o server)._paginatedOpportunities.length = 100 := by
    unfold scenarioS2o; rw [d1]
    simp only [List.length_append, _addRecordUrls, List.length_map]
    omega
  have h2ooff : (scenarioS2o server)._opportunityOffset = 100 := by
    unfold scenarioS2o; rw [d2]; omega
  have h2oen : (scenarioS2o server).enableOpportunityInfiniteLoading = true := by
    unfold scenarioS2o; rw [d3, hg2, h1oen]; simp [PAGE_SIZE]
  have hoterm2 : (scenarioS2o server).opportunitySearchTerm = "" := by
    unfold scenarioS2o; rw [d4]; exact hoterm1
  have h2oact : _isOpportunitySearchActive (scenarioS2o server) = false := by
    simp [_isOpportunitySearchActive, hoterm2]
  have h2oload : (scenarioS2o server)._opportunitiesLoading = false := by
    unfold scenarioS2o; rw [d5]
  obtain ⟨f1, f2, f3, f4, f5⟩ :=
    handleOpportunityLoadMore_ok_frame (scenarioS2o server)
      (fetchPage server PAGE_SIZE (scenarioS2o server)._opportunityOffset) h2oact h2oload
  have hg3 : (fetchPage server PAGE_SIZE (scenarioS2o server)._opportunityOffset).length = 20 := by
    rw [h2ooff, fetchPage_length]; simp [PAGE_SIZE]; omega
  have h3orows : (scenarioS3o server)._paginatedOpportunities.length = 120 := by
    unfold scenarioS3o; rw [f1]
    simp only [List.length_append, _addRecordUrls, List.length_map]
    omega
  have h3ooff : (scenarioS3o server)._opportunityOffset = 120 := by
    unfold scenarioS3o; rw [f2]; omega
  have h3oen : (scenarioS3o server).enableOpportunityInfiniteLoading = false := by
    unfold scenarioS3o; rw [f3, hg3]; simp [PAGE_SIZE]
  refine ⟨g3, ?_, ?_, g4, ?_, ?_, h1rows, h1en, h1off, h2rows, h2en, h2off,
    h3rows, h3en, h3off, h1orows, h1oen, h1ooff, h2orows, h2oen, h2ooff,
    h3orows, h3oen, h3ooff⟩
  · rw [g1]; simp [_addRecordUrls]
  · rw [g5]; simp [PAGE_SIZE] at hra ⊢; omega
  · rw [g2]; simp [_addRecordUrls]
  · rw [g6]; simp [PAGE_SIZE] at hrb ⊢; omega

/-- A concrete 120-record server collection. -/
def server120 : List SRecord :=
  (List.range 120).map (fun i => { Id := toString i, fields := [] })

/-- Witness for C3: the 50 / 100 / 120 scenario run against `server120`. -/
theorem initialLoad_pagination_arithmetic_witness :
    [recA].length ≤ PAGE_SIZE
    ∧ server120.length = 120
    ∧ (scenarioS1 server120)._paginatedContacts.length = 50
    ∧ (scenarioS1 server120).enableContactInfiniteLoading = true
    ∧ (scenarioS1 server120)._contactOffset = 50
    ∧ (scenarioS2c server120)._paginatedContacts.length = 100
    ∧ (scenarioS2c server120).enableContactInfiniteLoading = true
    ∧ (scenarioS2c server120)._contactOffset = 100
    ∧ (scenarioS3c server120)._paginatedContacts.length = 120
    ∧ (scenarioS3c server120).enableContactInfiniteLoading = false
    ∧ (scenarioS3c server120)._contactOffset = 120 := by
  have h := initialLoad_pagination_arithmetic initialState [recA] [recA] 0 0
    (by decide) (by decide) server120 (by simp [server120])
  exact ⟨by decide, by simp [server120],
    h.2.2.2.2.2.2.1,
    h.2.2.2.2.2.2.2.1,
    h.2.2.2.2.2.2.2.2.1,
    h.2.2.2.2.2.2.2.2.2.1,
    h.2.2.2.2.2.2.2.2.2.2.1,
    h.2.2.2.2.2.2.2.2.2.2.2.1,
    h.2.2.2.2.2.2.2.2.2.2.2.2.1,
    h.2.2.2.2.2.2.2.2.2.2.2.2.2.1,
    h.2.2.2.2.2.2.2.2.2.2.2.2.2.2.1⟩

/-! ### C4 — offset always equals the number of loaded paginated rows -/

/-- The pagination invariant of the spec: each collection's offset equals
the number of rows currently held along the paginated cursor. -/
def OffsetInvariant (s : ComponentState) : Prop :=
  s._contactOffset = s._paginatedContacts.length
  ∧ s._opportunityOffset = s._paginatedOpportunities.length

theorem offsetInv_loadInitialData (s : ComponentState)
    (cF oF : Except JsError (List SRecord)) (ccF ocF : Except JsError Nat)
    (h : OffsetInvariant s) :
    OffsetInvariant (_loadInitialData s cF oF ccF ocF) := by
  cases cF <;> cases oF <;> cases ccF <;> cases ocF <;>
    simp_all [_loadInitialData, promiseAll4, OffsetInvariant, _addRecordUrls]

theorem offsetInv_contactLoadMore (s : ComponentState)
    (o : Except JsError (List SRecord)) (h : OffsetInvariant s) :
    OffsetInvariant (handleContactLoadMore s o) := by
  obtain ⟨h1, h2⟩ := h
  by_cases hg : (_isContactSearchActive s || s._contactsLoading) = true
  · simpa [handleContactLoadMore, hg] using ⟨h1, h2⟩
  · cases o with
    | ok result =>
      constructor <;>
        simp [handleContactLoadMore, hg, OffsetInvariant, apply_ite, _addRecordUrls, h1, h2]
    | error e =>
      constructor <;> simp [handleContactLoadMore, hg, h1, h2]

theorem offsetInv_opportunityLoadMore (s : ComponentState)
    (o : Except JsError (List SRecord)) (h : OffsetInvariant s) :
    OffsetInvariant (handleOpportunityLoadMore s o) := by
  obtain ⟨h1, h2⟩ := h
  by_cases hg : (_isOpportunitySearchActive s || s._opportunitiesLoading) = true
  · simpa [handleOpportunityLoadMore, hg] using ⟨h1, h2⟩
  · cases o with
    | ok result =>
      constructor <;>
        simp [handleOpportunityLoadMore, hg, OffsetInvariant, apply_ite, _addRecordUrls, h1, h2]
    | error e =>
      constructor <;> simp [handleOpportunityLoadMore, hg, h1, h2]

theorem offsetInv_contactSave (s : ComponentState) (d : List Draft)
    (us : List (Except JsError Unit)) (so : Except JsError (List SRecord))
    (ro : Except JsError (List SRecord × Nat)) (h : OffsetInvariant s) :
    OffsetInvariant (handleContactSave s d us so ro) := by
  obtain ⟨h1, h2⟩ := h
  rcases hfe : firstError us with _ | e
  · unfold handleContactSave
    rw [hfe]
    cases ro with
    | ok rc =>
      obtain ⟨r, c⟩ := rc
      constructor
      · simp only [reloadDataContactOk_frame, _addRecordUrls, List.length_map]
      · simp only [reloadDataContactOk_frame,
          apply_ite (f := ComponentState._opportunityOffset),
          apply_ite (f := ComponentState._paginatedOpportunities),
          executeContactSearch_frame, ite_self]
        exact h2
    | error e2 =>
      constructor
      · simp only [apply_ite (f := ComponentState._contactOffset),
          apply_ite (f := ComponentState._paginatedContacts),
          executeContactSearch_frame, ite_self]
        exact h1
      · simp only [apply_ite (f := ComponentState._opportunityOffset),
          apply_ite (f := ComponentState._paginatedOpportunities),
          executeContactSearch_frame, ite_self]
        exact h2
  · rw [handleContactSave_err_eq s d us so ro e hfe]; exact ⟨h1, h2⟩

theorem offsetInv_opportunitySave (s : ComponentState) (d : List Draft)
    (us : List (Except JsError Unit)) (so : Except JsError (List SRecord))
    (ro : Except JsError (List SRecord × Nat)) (h : OffsetInvariant s) :
    OffsetInvariant (handleOpportunitySave s d us so ro) := by
  obtain ⟨h1, h2⟩ := h
  rcases hfe : firstError us with _ | e
  · unfold handleOpportunitySave
    rw [hfe]
    cases ro with
    | ok rc =>
      obtain ⟨r, c⟩ := rc
      constructor
      · simp only [reloadDataOpportunityOk_frame,
          apply_ite (f := ComponentState._contactOffset),
          apply_ite (f := ComponentState._paginatedContacts),
          executeOpportunitySearch_frame, ite_self]
        exact h1
      · simp only [reloadDataOpportunityOk_frame, _addRecordUrls, List.length_map]
    | error e2 =>
      constructor
      · simp only [apply_ite (f := ComponentState._contactOffset),
          apply_ite (f := ComponentState._paginatedContacts),
          executeOpportunitySearch_frame, ite_self]
        exact h1
      · simp only [apply_ite (f := ComponentState._opportunityOffset),
          apply_ite (f := ComponentState._paginatedOpportunities),
          executeOpportunitySearch_frame, ite_self]
        exact h2
  · rw [handleOpportunitySave_err_eq s d us so ro e hfe]; exact ⟨h1, h2⟩

theorem offsetInv_contactDelete (s : ComponentState) (du : Except JsError Unit)
    (so : Except JsError (List SRecord)) (ro : Except JsError (List SRecord × Nat))
    (h : OffsetInvariant s) :
    OffsetInvariant (_deleteRowContact s du so ro) := by
  obtain ⟨h1, h2⟩ := h
  unfold _deleteRowContact
  cases du with
  | error e => exact ⟨h1, h2⟩
  | ok u =>
    cases ro with
    | ok rc =>
      obtain ⟨r, c⟩ := rc
      constructor
      · simp only [reloadDataContactOk_frame, _addRecordUrls, List.length_map]
      · simp only [reloadDataContactOk_frame,
          apply_ite (f := ComponentState._opportunityOffset),
          apply_ite (f := ComponentState._paginatedOpportunities),
          executeContactSearch_frame, ite_self]
        exact h2
    | error e2 =>
      constructor
      · simp only [apply_ite (f := ComponentState._contactOffset),
          apply_ite (f := ComponentState._paginatedContacts),
          executeContactSearch_frame, ite_self]
        exact h1
      · simp only [apply_ite (f := ComponentState._opportunityOffset),
          apply_ite (f := ComponentState._paginatedOpportunities),
          executeContactSearch_frame, ite_self]
        exact h2

theorem offsetInv_opportunityDelete (s : ComponentState) (du : Except JsError Unit)
    (so : Except JsError (List SRecord)) (ro : Except JsError (List SRecord × Nat))
    (h : OffsetInvariant s) :
    OffsetInvariant (_deleteRowOpportunity s du so ro) := by
  obtain ⟨h1, h2⟩ := h
  unfold _deleteRowOpportunity
  cases du with
  | error e => exact ⟨h1, h2⟩
  | ok u =>
    cases ro with
    | ok rc =>
      obtain ⟨r, c⟩ := rc
      constructor
      · simp only [reloadDataOpportunityOk_frame,
          apply_ite (f := ComponentState._contactOffset),
          apply_ite (f := ComponentState._paginatedContacts),
          executeOpportunitySearch_frame, ite_self]
        exact h1
      · simp only [reloadDataOpportunityOk_frame, _addRecordUrls, List.length_map]
    | error e2 =>
      constructor
      · simp only [apply_ite (f := ComponentState._contactOffset),
          apply_ite (f := ComponentState._paginatedContacts),
          executeOpportunitySearch_frame, ite_self]
        exact h1
      · simp only [apply_ite (f := ComponentState._opportunityOffset),
          apply_ite (f := ComponentState._paginatedOpportunities),
          executeOpportunitySearch_frame, ite_self]
        exact h2

theorem offsetInv_refresh (s : ComponentState)
    (cF oF : Except JsError (List SRecord)) (ccF ocF : Except JsError Nat) :
    OffsetInvariant (handleRefresh s cF oF ccF ocF) := by
  unfold handleRefresh
  exact offsetInv_loadInitialData _ cF oF ccF ocF ⟨rfl, rfl⟩

/-- C4: the pagination invariant `offset = loaded rows` is preserved by the
initial load, both loadMores, both saves, both deletes, both reload
branches, and the full refresh, whatever the gateway outcomes. -/
theorem offset_invariant_preserved
    (s : ComponentState) (h : OffsetInvariant s)
    (cF oF : Except JsError (List SRecord)) (ccF ocF : Except JsError Nat)
    (o p : Except JsError (List SRecord))
    (d : List Draft) (us : List (Except JsError Unit))
    (so po : Except JsError (List SRecord))
    (ro qo : Except JsError (List SRecord × Nat))
    (du : Except JsError Unit)
    (r : List SRecord) (c : Nat) :
    OffsetInvariant (_loadInitialData s cF oF ccF ocF)
    ∧ OffsetInvariant (handleContactLoadMore s o)
    ∧ OffsetInvariant (handleOpportunityLoadMore s p)
    ∧ OffsetInvariant (_reloadDataContactOk s r c)
    ∧ OffsetInvariant (_reloadDataOpportunityOk s r c)
    ∧ OffsetInvariant (handleContactSave s d us so ro)
    ∧ OffsetInvariant (handleOpportunitySave s d us po qo)
    ∧ OffsetInvariant (_deleteRowContact s du so ro)
    ∧ OffsetInvariant (_deleteRowOpportunity s du po qo)
    ∧ OffsetInvariant (handleRefresh s cF oF ccF ocF) := by
  refine ⟨offsetInv_loadInitialData s cF oF ccF ocF h,
    offsetInv_contactLoadMore s o h,
    offsetInv_opportunityLoadMore s p h,
    ?_, ?_,
    offsetInv_contactSave s d us so ro h,
    offsetInv_opportunitySave s d us po qo h,
    offsetInv_contactDelete s du so ro h,
    offsetInv_opportunityDelete s du po qo h,
    offsetInv_refresh s cF oF ccF ocF⟩
  · constructor
    · simp only [reloadDataContactOk_frame, _addRecordUrls, List.length_map]
    · simp only [reloadDataContactOk_frame]
      exact h.2
  · constructor
    · simp only [reloadDataOpportunityOk_frame]
      exact h.1
    · simp only [reloadDataOpportunityOk_frame, _addRecordUrls, List.length_map]

/-- Witness for C4: the invariant holds of the one-page state and survives
each operation on concrete inputs. -/
theorem offset_invariant_preserved_witness :
    OffsetInvariant stOnePage
    ∧ (OffsetInvariant (_loadInitialData stOnePage (.ok [recA]) (.ok [recB]) (.ok 1) (.ok 1))
      ∧ OffsetInvariant (handleContactLoadMore stOnePage (.ok [recB]))
      ∧ OffsetInvariant (handleOpportunityLoadMore stOnePage (.ok [recB]))
      ∧ OffsetInvariant (_reloadDataContactOk stOnePage [recA] 1)
      ∧ OffsetInvariant (_reloadDataOpportunityOk stOnePage [recA] 1)
      ∧ OffsetInvariant (handleContactSave stOnePage [draftA] [.ok ()] (.ok []) (.ok ([recA], 1)))
      ∧ OffsetInvariant
          (handleOpportunitySave stOnePage [draftA] [.ok ()] (.ok []) (.ok ([recA], 1)))
      ∧ OffsetInvariant (_deleteRowContact stOnePage (.ok ()) (.ok []) (.ok ([recA], 1)))
      ∧ OffsetInvariant (_deleteRowOpportunity stOnePage (.ok ()) (.ok []) (.ok ([recA], 1)))
      ∧ OffsetInvariant (handleRefresh stOnePage (.ok [recA]) (.ok [recB]) (.ok 1) (.ok 1))) :=
  ⟨by constructor <;> decide,
    offset_invariant_preserved stOnePage (by constructor <;> decide)
      (.ok [recA]) (.ok [recB]) (.ok 1) (.ok 1) (.ok [recB]) (.ok [recB])
      [draftA] [.ok ()] (.ok []) (.ok []) (.ok ([recA], 1)) (.ok ([recA], 1)) (.ok ())
      [recA] 1⟩

/-- The character comparison is irreflexive. -/
theorem jsLtChars_irrefl : ∀ x : List Char, jsLtChars x x = false
  | [] => rfl
  | c :: xs => by simp [jsLtChars, jsLtChars_irrefl xs]

/-- The character comparison is asymmetric. -/
theorem jsLtChars_asymm : ∀ x y : List Char,
    jsLtChars x y = true → jsLtChars y x = false
  | [], [] => by simp [jsLtChars]
  | [], _ :: _ => by simp [jsLtChars]
  | _ :: _, [] => by simp [jsLtChars]
  | a :: xs, b :: ys => by
    by_cases h1 : a < b
    · simp [jsLtChars, h1, lt_asymm h1]
    · by_cases h2 : b < a
      · simp [jsLtChars, h1, h2]
      · simp only [jsLtChars, if_neg h1, if_neg h2]
        exact jsLtChars_asymm xs ys

/-- Two sequences neither of which is below the other are equal. -/
theorem jsLtChars_conn : ∀ x y : List Char,
    jsLtChars x y = false → jsLtChars y x = false → x = y
  | [], [] => fun _ _ => rfl
  | [], _ :: _ => by simp [jsLtChars]
  | _ :: _, [] => by simp [jsLtChars]
  | a :: xs, b :: ys => by
    by_cases h1 : a < b
    · simp [jsLtChars, h1]
    · by_cases h2 : b < a
      · simp [jsLtChars, h1, h2]
      · have hab : a = b := le_antisymm (not_lt.mp h2) (not_lt.mp h1)
        subst hab
        simp only [jsLtChars, if_neg h1, if_neg h2]
        intro hxy hyx
        rw [jsLtChars_conn xs ys hxy hyx]

/-- Transitivity of the reflexive closure of the comparison. -/
theorem jsLtChars_le_trans : ∀ x y z : List Char,
    jsLtChars y x = false → jsLtChars z y = false → jsLtChars z x = false
  | [], _, z => fun _ _ => by cases z <;> rfl
  | _ :: _, [], _ => by simp [jsLtChars]
  | _ :: _, _ :: _, [] => by simp [jsLtChars]
  | a :: xs, b :: ys, c :: zs => by
    by_cases h1 : b < a
    · simp [jsLtChars, h1]
    · by_cases h2 : c < b
      · simp [jsLtChars, h1, h2]
      · have hab : a ≤ b := not_lt.mp h1
        have hbc : b ≤ c := not_lt.mp h2
        have hca : ¬ c < a := not_lt.mpr (le_trans hab hbc)
        by_cases hac : a < c
        · simp [jsLtChars, h1, h2, hca, hac]
        · have hace : a = c := le_antisymm (le_trans hab hbc) (not_lt.mp hac)
          have habe : a = b := le_antisymm hab (hace ▸ hbc)
          subst habe
          have hbce : a = c := hace
          subst hbce
          simp only [jsLtChars, if_neg h1, if_neg h2]
          exact jsLtChars_le_trans xs ys zs

/-- Two strings neither of which is below the other are equal. -/
theorem jsLtString_conn {a b : String} (h1 : jsLtString a b = false)
    (h2 : jsLtString b a = false) : a = b := by
  cases a with
  | mk da =>
    cases b with
    | mk db =>
      rw [jsLtChars_conn da db h1 h2]

/-- The comparator on two rows whose (defaulted) field values are strings:
lower-case both, compare by code units, scale by the direction. -/
theorem rowCompare_str (fieldName : String) (ir : Int) (a b : Row) (sa sb : String)
    (ha : jsOrEmptyString (getField a fieldName) = .str sa)
    (hb : jsOrEmptyString (getField b fieldName) = .str sb) :
    rowCompare fieldName ir a b
      = some (if jsLtString (jsToLowerCase sb) (jsToLowerCase sa) then ir
              else if jsLtString (jsToLowerCase sa) (jsToLowerCase sb) then -ir else 0) := by
  simp [rowCompare, ha, hb, jsGT, jsLT]

/-- The sort key of a row with a string-or-falsy field value. -/
theorem keyOf_eq (fieldName : String) (a : Row) (sa : String)
    (ha : jsOrEmptyString (getField a fieldName) = .str sa) :
    keyOf fieldName a = jsToLowerCase sa := by
  simp [keyOf, ha]

/-- Ascending comparator order in terms of the case-folded keys. -/
theorem rowCompareT_asc_le (fieldName : String) (a b : Row)
    (ha : IsStringlike (getField a fieldName)) (hb : IsStringlike (getField b fieldName)) :
    (rowCompareT fieldName 1 a b ≤ 0
      ↔ jsLtString (keyOf fieldName b) (keyOf fieldName a) = false) := by
  obtain ⟨sa, ha⟩ := ha
  obtain ⟨sb, hb⟩ := hb
  rw [rowCompareT, rowCompare_str fieldName 1 a b sa sb ha hb, keyOf_eq fieldName a sa ha,
    keyOf_eq fieldName b sb hb]
  cases h1 : jsLtString (jsToLowerCase sb) (jsToLowerCase sa) with
  | true => simp [h1]
  | false =>
    cases h2 : jsLtString (jsToLowerCase sa) (jsToLowerCase sb) with
    | true => simp [h1, h2]
    | false => simp [h1, h2]

/-- Descending comparator order in terms of the case-folded keys. -/
theorem rowCompareT_desc_le (fieldName : String) (a b : Row)
    (ha : IsStringlike (getField a fieldName)) (hb : IsStringlike (getField b fieldName)) :
    (rowCompareT fieldName (-1) a b ≤ 0
      ↔ jsLtString (keyOf fieldName a) (keyOf fieldName b) = false) := by
  obtain ⟨sa, ha⟩ := ha
  obtain ⟨sb, hb⟩ := hb
  rw [rowCompareT, rowCompare_str fieldName (-1) a b sa sb ha hb, keyOf_eq fieldName a sa ha,
    keyOf_eq fieldName b sb hb]
  cases h1 : jsLtString (jsToLowerCase sb) (jsToLowerCase sa) with
  | true =>
    simp [h1]
    exact jsLtChars_asymm _ _ h1
  | false =>
    cases h2 : jsLtString (jsToLowerCase sa) (jsToLowerCase sb) with
    | true => simp [h1, h2]
    | false => simp [h1, h2]

/-- `orderedInsert` only evaluates its relation on the inserted element and
list members. -/
theorem orderedInsert_congr {α : Type} (p q : α → α → Prop)
    [DecidableRel p] [DecidableRel q] (a : α) :
    ∀ M : List α, (∀ b ∈ M, (p a b ↔ q a b)) → M.orderedInsert p a = M.orderedInsert q a
  | [], _ => rfl
  | b :: M, h => by
    simp only [List.orderedInsert]
    by_cases hpb : p a b
    · rw [if_pos hpb, if_pos ((h b (List.mem_cons_self b M)).mp hpb)]
    · rw [if_neg hpb, if_neg (fun hq => hpb ((h b (List.mem_cons_self b M)).mpr hq)),
        orderedInsert_congr p q a M (fun c hc => h c (List.mem_cons_of_mem b hc))]

/-- `insertionSort` only evaluates its relation on pairs of list members. -/
theorem insertionSort_congr {α : Type} (p q : α → α → Prop)
    [DecidableRel p] [DecidableRel q] :
    ∀ l : List α, (∀ a ∈ l, ∀ b ∈ l, (p a b ↔ q a b)) →
      l.insertionSort p = l.insertionSort q
  | [], _ => rfl
  | a :: l, h => by
    simp only [List.insertionSort]
    rw [insertionSort_congr p q l
        (fun x hx y hy => h x (List.mem_cons_of_mem a hx) y (List.mem_cons_of_mem a hy)),
      orderedInsert_congr p q a (l.insertionSort q)
        (fun b hb => h a (List.mem_cons_self a l) b
          (List.mem_cons_of_mem a ((List.mem_insertionSort q).mp hb)))]

/-- Inserting `a` past exactly the strictly-smaller prefix keeps the
subsequence of any fixed key intact (stability, one insertion). -/
theorem orderedInsert_filter_key {α : Type} (key : α → String) (R : α → α → Prop)
    [DecidableRel R] (hcov : ∀ a b, ¬ R a b → key a ≠ key b) (a : α) (sv : String) :
    ∀ M : List α,
      (M.orderedInsert R a).filter (fun r => key r == sv)
        = if key a == sv then a :: M.filter (fun r => key r == sv)
          else M.filter (fun r => key r == sv)
  | [] => by
    by_cases hk : key a = sv <;> simp [List.orderedInsert, List.filter_cons, hk]
  | b :: M => by
    by_cases hr : R a b
    · by_cases hk : key a = sv <;>
        simp [List.orderedInsert, if_pos hr, List.filter_cons, hk]
    · have hne : key a ≠ key b := fun e => hcov a b hr e
      have ih := orderedInsert_filter_key key R hcov a sv M
      by_cases hk : key a = sv
      · have hbk : ¬ (key b = sv) := fun e => hne (hk.trans e.symm)
        simp [List.orderedInsert, if_neg hr, List.filter_cons, hk, hbk, ih]
      · by_cases hbk : key b = sv <;>
          simp [List.orderedInsert, if_neg hr, List.filter_cons, hk, hbk, ih]

/-- Stability: the sort preserves the subsequence of rows sharing any given
key, hence the original relative order of tied rows. -/
theorem insertionSort_filter_key {α : Type} (key : α → String) (R : α → α → Prop)
    [DecidableRel R] (hcov : ∀ a b, ¬ R a b → key a ≠ key b) (sv : String) :
    ∀ l : List α,
      (l.insertionSort R).filter (fun r => key r == sv) = l.filter (fun r => key r == sv)
  | [] => rfl
  | a :: l => by
    simp only [List.insertionSort]
    rw [orderedInsert_filter_key key R hcov a sv (l.insertionSort R),
      insertionSort_filter_key key R hcov sv l, List.filter_cons]

/-- With pairwise distinct keys, the descending sort is the reverse of the
ascending sort. -/
theorem insertionSort_desc_eq_reverse_asc {α : Type} (key : α → String) (l : List α)
    (hd : l.Pairwise (fun a b => key a ≠ key b)) :
    l.insertionSort (fun a b => jsLtString (key a) (key b) = false)
      = (l.insertionSort (fun a b => jsLtString (key b) (key a) = false)).reverse := by
  haveI : IsTotal α (fun a b => jsLtString (key a) (key b) = false) :=
    ⟨fun a b => by
      cases h : jsLtString (key a) (key b) with
      | false => exact Or.inl rfl
      | true => exact Or.inr (jsLtChars_asymm _ _ h)⟩
  haveI : IsTrans α (fun a b => jsLtString (key a) (key b) = false) :=
    ⟨fun a b c h1 h2 => jsLtChars_le_trans (key c).data (key b).data (key a).data h2 h1⟩
  haveI : IsTotal α (fun a b => jsLtString (key b) (key a) = false) :=
    ⟨fun a b => by
      cases h : jsLtString (key b) (key a) with
      | false => exact Or.inl rfl
      | true => exact Or.inr (jsLtChars_asymm _ _ h)⟩
  haveI : IsTrans α (fun a b => jsLtString (key b) (key a) = false) :=
    ⟨fun a b c h1 h2 => jsLtChars_le_trans (key a).data (key b).data (key c).data h1 h2⟩
  haveI : IsAntisymm α (fun a b => jsLtString (key b) (key a) = true) :=
    ⟨fun a b h1 h2 => by
      have h3 : jsLtString (key a) (key b) = false := jsLtChars_asymm _ _ h1
      rw [h2] at h3
      cases h3⟩
  have hsymm : ∀ {x y : α}, key x ≠ key y → key y ≠ key x := fun h => h.symm
  have hpermA : List.Perm (l.insertionSort (fun a b => jsLtString (key a) (key b) = false)) l :=
    List.perm_insertionSort _ l
  have hpermS : List.Perm (l.insertionSort (fun a b => jsLtString (key b) (key a) = false)) l :=
    List.perm_insertionSort _ l
  have hdA := (List.Perm.pairwise_iff hsymm hpermA).mpr hd
  have hdS := (List.Perm.pairwise_iff hsymm hpermS).mpr hd
  have toStrict : ∀ {x y : α},
      (jsLtString (key x) (key y) = false ∧ key x ≠ key y)
        → jsLtString (key y) (key x) = true := by
    intro x y hxy
    obtain ⟨hle, hne⟩ := hxy
    cases hv : jsLtString (key y) (key x) with
    | true => rfl
    | false => exact absurd (jsLtString_conn hle hv) hne
  have hA : (l.insertionSort (fun a b => jsLtString (key a) (key b) = false)).Pairwise
      (fun a b : α => jsLtString (key b) (key a) = true) :=
    ((List.sorted_insertionSort _ l).and hdA).imp (fun h => toStrict h)
  have hS : (l.insertionSort (fun a b => jsLtString (key b) (key a) = false)).Pairwise
      (fun a b : α => jsLtString (key a) (key b) = true) :=
    ((List.sorted_insertionSort _ l).and hdS).imp
      (fun h => toStrict ⟨h.1, h.2.symm⟩)
  have hB : ((l.insertionSort (fun a b => jsLtString (key b) (key a) = false)).reverse).Pairwise
      (fun a b : α => jsLtString (key b) (key a) = true) :=
    List.pairwise_reverse.mpr hS
  exact List.eq_of_perm_of_sorted
    (hpermA.trans (hpermS.symm.trans
      ((l.insertionSort (fun a b => jsLtString (key b) (key a) = false)).reverse_perm.symm)))
    hA hB

/-- String comparison is irreflexive. -/
theorem jsLtString_irrefl (a : String) : jsLtString a a = false :=
  jsLtChars_irrefl a.data

/-- Under string-or-falsy field values, the ascending `_sortData` is the
insertion sort by case-folded key. -/
theorem sortData_asc_eq (data : List Row) (fieldName : String)
    (hs : ∀ r ∈ data, IsStringlike (getField r fieldName)) :
    _sortData data fieldName "asc"
      = data.insertionSort
          (fun x y => jsLtString (keyOf fieldName y) (keyOf fieldName x) = false) := by
  have h0 : _sortData data fieldName "asc"
      = data.insertionSort (fun x y => rowCompareT fieldName 1 x y ≤ 0) := rfl
  rw [h0]
  exact insertionSort_congr _ _ data
    (fun x hx y hy => rowCompareT_asc_le fieldName x y (hs x hx) (hs y hy))

/-- Under string-or-falsy field values, the descending `_sortData` is the
insertion sort by reversed case-folded key. -/
theorem sortData_desc_eq (data : List Row) (fieldName : String)
    (hs : ∀ r ∈ data, IsStringlike (getField r fieldName)) :
    _sortData data fieldName "desc"
      = data.insertionSort
          (fun x y => jsLtString (keyOf fieldName x) (keyOf fieldName y) = false) := by
  have h0 : _sortData data fieldName "desc"
      = data.insertionSort (fun x y => rowCompareT fieldName (-1) x y ≤ 0) := rfl
  rw [h0]
  exact insertionSort_congr _ _ data
    (fun x hx y hy => rowCompareT_desc_le fieldName x y (hs x hx) (hs y hy))

/-- Rows unrelated by the ascending key order have distinct keys. -/
theorem hcovAsc (fieldName : String) :
    ∀ x y : Row, ¬ (jsLtString (keyOf fieldName y) (keyOf fieldName x) = false)
      → keyOf fieldName x ≠ keyOf fieldName y := by
  intro x y h he
  apply h
  rw [he, jsLtString_irrefl]

/-- Rows unrelated by the descending key order have distinct keys. -/
theorem hcovDesc (fieldName : String) :
    ∀ x y : Row, ¬ (jsLtString (keyOf fieldName x) (keyOf fieldName y) = false)
      → keyOf fieldName x ≠ keyOf fieldName y := by
  intro x y h he
  apply h
  rw [he, jsLtString_irrefl]

/-! ### C9 — sort: stable and case-insensitive, mirror only without ties -/

/-- A contact row named `"Ann"`. -/
def rowAnn : Row := { Id := "003A", fields := [("Name", .str "Ann")], recordUrl := "/003A" }

/-- A distinct contact row whose name ties with `rowAnn` after case
folding. -/
def rowAnn2 : Row := { Id := "003B", fields := [("Name", .str "ann")], recordUrl := "/003B" }

/-- A contact row named `"Bea"`. -/
def rowBea : Row := { Id := "003C", fields := [("Name", .str "Bea")], recordUrl := "/003C" }

/-- C9 counterexample: on the two-row set `[rowAnn, rowAnn2]`, whose keys
tie after case folding, sorting `"asc"` and then `"desc"` does not produce
mirror-image orderings (stability keeps the tied rows in original order in
both directions), refuting the claim as stated. -/
theorem sort_mirror_counterexample :
    _sortData (_sortData [rowAnn, rowAnn2] "Name" "asc") "Name" "desc"
      ≠ (_sortData [rowAnn, rowAnn2] "Name" "asc").reverse
    ∧ _sortData [rowAnn, rowAnn2] "Name" "desc"
      ≠ (_sortData [rowAnn, rowAnn2] "Name" "asc").reverse := by
  decide

/-- A list with no duplicate elements that equals its own reverse has at
most one element. -/
theorem nodup_reverse_eq_self_length_le_one {α : Type} :
    ∀ l : List α, l.Nodup → l.reverse = l → l.length ≤ 1
  | [], _, _ => by simp
  | [a], _, _ => by simp
  | a :: b :: u, hnd, hrev => by
    exfalso
    have h2 : (a :: b :: u).reverse = (b :: u).reverse ++ [a] := by
      simp [List.reverse_cons]
    have h1 : ((b :: u).reverse ++ [a]).getLast? = some a := List.getLast?_concat _
    rw [← h2, hrev, List.getLast?_cons_cons] at h1
    have hmem : a ∈ (b :: u) := by
      obtain ⟨hne, heq⟩ := List.mem_getLast?_eq_getLast
        (show a ∈ (b :: u).getLast? by rw [h1]; rfl)
      rw [heq]
      exact List.getLast_mem hne
    exact (List.nodup_cons.mp hnd).1 hmem

/-- Whenever a set of pairwise-distinct rows contains two rows whose
case-folded keys tie, the descending sort differs from the reverse of the
ascending sort: stability keeps the tied pair in original order in both
directions, while the mirror image would swap it. -/
theorem sortData_not_mirror_of_tie (data : List Row) (fieldName : String)
    (hs : ∀ r ∈ data, IsStringlike (getField r fieldName))
    (hnd : data.Pairwise (fun x y : Row => x ≠ y))
    (x y : Row) (hx : x ∈ data) (hy : y ∈ data) (hxy : x ≠ y)
    (hkey : keyOf fieldName x = keyOf fieldName y) :
    _sortData data fieldName "desc" ≠ (_sortData data fieldName "asc").reverse := by
  intro hmir
  have hstabd : (_sortData data fieldName "desc").filter
        (fun r => keyOf fieldName r == keyOf fieldName x)
      = data.filter (fun r => keyOf fieldName r == keyOf fieldName x) := by
    rw [sortData_desc_eq data fieldName hs]
    exact insertionSort_filter_key (keyOf fieldName) _
      (fun u v h => (hcovDesc fieldName u v h)) (keyOf fieldName x) data
  have hstaba : (_sortData data fieldName "asc").filter
        (fun r => keyOf fieldName r == keyOf fieldName x)
      = data.filter (fun r => keyOf fieldName r == keyOf fieldName x) := by
    rw [sortData_asc_eq data fieldName hs]
    exact insertionSort_filter_key (keyOf fieldName) _
      (fun u v h => (hcovAsc fieldName u v h)) (keyOf fieldName x) data
  have hpal : (data.filter (fun r => keyOf fieldName r == keyOf fieldName x)).reverse
      = data.filter (fun r => keyOf fieldName r == keyOf fieldName x) := by
    conv_lhs => rw [← hstaba]
    rw [← List.filter_reverse, ← hmir, hstabd]
  have hxf : x ∈ data.filter (fun r => keyOf fieldName r == keyOf fieldName x) :=
    List.mem_filter.mpr ⟨hx, by simp⟩
  have hyf : y ∈ data.filter (fun r => keyOf fieldName r == keyOf fieldName x) :=
    List.mem_filter.mpr ⟨hy, by simp [hkey]⟩
  have hndf : (data.filter (fun r => keyOf fieldName r == keyOf fieldName x)).Nodup :=
    List.Nodup.filter _ hnd
  have hlen := nodup_reverse_eq_self_length_le_one _ hndf hpal
  rcases hfl : data.filter (fun r => keyOf fieldName r == keyOf fieldName x) with _ | ⟨c, cs⟩
  · rw [hfl] at hxf
    cases hxf
  · rw [hfl] at hxf hyf hlen
    rcases cs with _ | ⟨d, ds⟩
    · rw [List.mem_singleton] at hxf hyf
      exact hxy (hxf.trans hyf.symm)
    · simp at hlen

/-- C9 (amended): for row sets whose values in the sorted field are strings
(or falsy, treated as `""`): sorting is stable in both directions for every
row set — the subsequence of rows with any fixed case-folded key, tied rows
included, is preserved exactly; string comparison is case-insensitive
(values equal after case folding compare as ties); and `"asc"` followed by
`"desc"` yields mirror-image orderings exactly when no two rows share a
case-folded key: the mirror holds whenever keys are pairwise distinct, and
fails for every set of pairwise-distinct rows containing a tied pair. -/
theorem applySort_stable_case_insensitive_mirror
    (data₁ : List Row) (fieldName : String) (sv : String)
    (hs₁ : ∀ r ∈ data₁, IsStringlike (getField r fieldName))
    (a b : Row) (sa sb : String)
    (ha : jsOrEmptyString (getField a fieldName) = .str sa)
    (hb : jsOrEmptyString (getField b fieldName) = .str sb)
    (hcase : jsToLowerCase sa = jsToLowerCase sb)
    (data₂ : List Row)
    (hs₂ : ∀ r ∈ data₂, IsStringlike (getField r fieldName))
    (hd₂ : data₂.Pairwise (fun x y => keyOf fieldName x ≠ keyOf fieldName y))
    (data₃ : List Row)
    (hs₃ : ∀ r ∈ data₃, IsStringlike (getField r fieldName))
    (hnd₃ : data₃.Pairwise (fun x y : Row => x ≠ y))
    (x y : Row) (hx : x ∈ data₃) (hy : y ∈ data₃) (hxy : x ≠ y)
    (hkey : keyOf fieldName x = keyOf fieldName y) :
    ((_sortData data₁ fieldName "asc").filter (fun r => keyOf fieldName r == sv)
        = data₁.filter (fun r => keyOf fieldName r == sv))
    ∧ ((_sortData data₁ fieldName "desc").filter (fun r => keyOf fieldName r == sv)
        = data₁.filter (fun r => keyOf fieldName r == sv))
    ∧ rowCompareT fieldName 1 a b = 0
    ∧ rowCompareT fieldName (-1) a b = 0
    ∧ _sortData data₂ fieldName "desc" = (_sortData data₂ fieldName "asc").reverse
    ∧ _sortData (_sortData data₂ fieldName "asc") fieldName "desc"
        = (_sortData data₂ fieldName "asc").reverse
    ∧ _sortData data₃ fieldName "desc" ≠ (_sortData data₃ fieldName "asc").reverse := by
  have hsymm : ∀ {u v : Row},
      keyOf fieldName u ≠ keyOf fieldName v → keyOf fieldName v ≠ keyOf fieldName u :=
    fun h => h.symm
  have hmem : ∀ r ∈ _sortData data₂ fieldName "asc", r ∈ data₂ := by
    rw [sortData_asc_eq data₂ fieldName hs₂]
    intro r hr
    exact (List.mem_insertionSort _).mp hr
  have hs₂' : ∀ r ∈ _sortData data₂ fieldName "asc", IsStringlike (getField r fieldName) :=
    fun r hr => hs₂ r (hmem r hr)
  have hperm : List.Perm (_sortData data₂ fieldName "asc") data₂ := by
    rw [sortData_asc_eq data₂ fieldName hs₂]
    exact List.perm_insertionSort _ data₂
  have hd₂' : (_sortData data₂ fieldName "asc").Pairwise
      (fun u v => keyOf fieldName u ≠ keyOf fieldName v) :=
    (List.Perm.pairwise_iff hsymm hperm).mpr hd₂
  haveI : IsTotal Row (fun u v => jsLtString (keyOf fieldName v) (keyOf fieldName u) = false) :=
    ⟨fun u v => by
      cases h : jsLtString (keyOf fieldName v) (keyOf fieldName u) with
      | false => exact Or.inl rfl
      | true => exact Or.inr (jsLtChars_asymm _ _ h)⟩
  haveI : IsTrans Row (fun u v => jsLtString (keyOf fieldName v) (keyOf fieldName u) = false) :=
    ⟨fun u v w h1 h2 =>
      jsLtChars_le_trans (keyOf fieldName u).data (keyOf fieldName v).data
        (keyOf fieldName w).data h1 h2⟩
  refine ⟨?_, ?_, ?_, ?_, ?_, ?_, ?_⟩
  · rw [sortData_asc_eq data₁ fieldName hs₁]
    exact insertionSort_filter_key (keyOf fieldName) _
      (fun u v h => (hcovAsc fieldName u v h)) sv data₁
  · rw [sortData_desc_eq data₁ fieldName hs₁]
    exact insertionSort_filter_key (keyOf fieldName) _
      (fun u v h => (hcovDesc fieldName u v h)) sv data₁
  · rw [rowCompareT, rowCompare_str fieldName 1 a b sa sb ha hb]
    simp [hcase, jsLtString_irrefl]
  · rw [rowCompareT, rowCompare_str fieldName (-1) a b sa sb ha hb]
    simp [hcase, jsLtString_irrefl]
  · rw [sortData_desc_eq data₂ fieldName hs₂, sortData_asc_eq data₂ fieldName hs₂]
    exact insertionSort_desc_eq_reverse_asc (keyOf fieldName) data₂ hd₂
  · have hsorted : (_sortData data₂ fieldName "asc").Sorted
        (fun u v => jsLtString (keyOf fieldName v) (keyOf fieldName u) = false) := by
      rw [sortData_asc_eq data₂ fieldName hs₂]
      exact List.sorted_insertionSort _ data₂
    have hfix := List.Sorted.insertionSort_eq hsorted
    rw [sortData_desc_eq _ fieldName hs₂']
    rw [insertionSort_desc_eq_reverse_asc (keyOf fieldName) _ hd₂']
    rw [hfix]
  · exact sortData_not_mirror_of_tie data₃ fieldName hs₃ hnd₃ x y hx hy hxy hkey

/-- Witness for C9 (amended): the tied set `[rowAnn, rowAnn2]` realizes
stability on a genuine tie and refutes the mirror, the distinct-key set
`[rowBea, rowAnn]` realizes the mirror, and the case-folded tie compares
as `0`. -/
theorem applySort_stable_case_insensitive_mirror_witness :
    rowAnn ≠ rowAnn2
    ∧ keyOf "Name" rowAnn = keyOf "Name" rowAnn2
    ∧ ((_sortData [rowAnn, rowAnn2] "Name" "desc").filter
          (fun r => keyOf "Name" r == "ann")
        = [rowAnn, rowAnn2].filter (fun r => keyOf "Name" r == "ann"))
    ∧ rowCompareT "Name" 1 rowAnn rowAnn2 = 0
    ∧ _sortData [rowBea, rowAnn] "Name" "desc"
        = (_sortData [rowBea, rowAnn] "Name" "asc").reverse
    ∧ _sortData [rowAnn, rowAnn2] "Name" "desc"
        ≠ (_sortData [rowAnn, rowAnn2] "Name" "asc").reverse := by
  have hsAnn : ∀ r ∈ [rowAnn, rowAnn2], IsStringlike (getField r "Name") := by
    intro r hr
    rcases List.mem_cons.mp hr with rfl | hr
    · exact ⟨"Ann", by decide⟩
    rcases List.mem_cons.mp hr with rfl | hr
    · exact ⟨"ann", by decide⟩
    · cases hr
  have hsBea : ∀ r ∈ [rowBea, rowAnn], IsStringlike (getField r "Name") := by
    intro r hr
    rcases List.mem_cons.mp hr with rfl | hr
    · exact ⟨"Bea", by decide⟩
    rcases List.mem_cons.mp hr with rfl | hr
    · exact ⟨"Ann", by decide⟩
    · cases hr
  have hpwBea : List.Pairwise (fun u v => keyOf "Name" u ≠ keyOf "Name" v)
      [rowBea, rowAnn] := by
    constructor
    · intro v hv
      rcases List.mem_cons.mp hv with rfl | hv
      · decide
      · cases hv
    · constructor
      · intro v hv; cases hv
      · constructor
  have hndAnn : List.Pairwise (fun u v : Row => u ≠ v) [rowAnn, rowAnn2] := by
    constructor
    · intro v hv
      rcases List.mem_cons.mp hv with rfl | hv
      · decide
      · cases hv
    · constructor
      · intro v hv; cases hv
      · constructor
  have h := applySort_stable_case_insensitive_mirror [rowAnn, rowAnn2] "Name" "ann" hsAnn
    rowAnn rowAnn2 "Ann" "ann" (by decide) (by decide) (by decide)
    [rowBea, rowAnn] hsBea hpwBea
    [rowAnn, rowAnn2] hsAnn hndAnn
    rowAnn rowAnn2 (List.mem_cons_self rowAnn [rowAnn2])
    (List.mem_cons_of_mem rowAnn (List.mem_cons_self rowAnn2 []))
    (by decide) (by decide)
  exact ⟨by decide, by decide, h.2.1, h.2.2.1, h.2.2.2.2.1, h.2.2.2.2.2.2⟩

/-! ### C10 — falsy field values sort as the empty string -/

/-- An opportunity row with `Amount` equal to the number `0`. -/
def rowAmount0 : Row := { Id := "006A", fields := [("Amount", .num 0)], recordUrl := "/006A" }

/-- An opportunity row with no `Amount` field at all. -/
def rowNoAmount : Row := { Id := "006B", fields := [], recordUrl := "/006B" }

/-- C10: every falsy field value — `""`, `null`/`undefined`, the number `0`
and `false` alike — is replaced by the empty string before comparison, so
two rows whose values default to `""` (for example an `Amount` of `0`
against a missing `Amount`) tie under the comparator in either
direction. -/
theorem falsy_field_values_compare_as_empty (v : JValue) (hv : isFalsy v = true)
    (f : String) (ir : Int) (a b : Row)
    (ha : jsOrEmptyString (getField a f) = .str "")
    (hb : jsOrEmptyString (getField b f) = .str "") :
    jsOrEmptyString (some v) = .str ""
    ∧ rowCompare f ir a b = some 0 := by
  constructor
  · simp [jsOrEmptyString, hv]
  · rw [rowCompare_str f ir a b "" "" ha hb]
    rw [show jsToLowerCase "" = "" from rfl]
    simp [jsLtString_irrefl]

/-- Witness for C10: the row with `Amount = 0` ties with the row lacking
`Amount`. -/
theorem falsy_field_values_compare_as_empty_witness :
    isFalsy (JValue.num 0) = true
    ∧ jsOrEmptyString (getField rowAmount0 "Amount") = .str ""
    ∧ jsOrEmptyString (getField rowNoAmount "Amount") = .str ""
    ∧ jsOrEmptyString (some (JValue.num 0)) = .str ""
    ∧ rowCompare "Amount" 1 rowAmount0 rowNoAmount = some 0 :=
  ⟨by decide, by decide, by decide,
    (falsy_field_values_compare_as_empty (JValue.num 0) (by decide) "Amount" 1 rowAmount0 rowNoAmount
      (by decide) (by decide)).1,
    (falsy_field_values_compare_as_empty (JValue.num 0) (by decide) "Amount" 1 rowAmount0 rowNoAmount
      (by decide) (by decide)).2⟩
